import Mathlib

/-!
Verification of the FitFighter motion-classification engine.

This file shallowly embeds the core of the `fitfighter` Python package:
the geometry utilities (`fitfighter/utils/angle_calculator.py` and
`fitfighter/utils/pose_processor.py`), the shared detector base class
(`fitfighter/core/base_detector.py`), the nine per-exercise detectors
(`fitfighter/detectors/*.py`), and the detector manager
(`fitfighter/core/detector_manager.py`).

Modelling conventions:
* Python floats are modelled as real numbers (`ℝ`).  IEEE-754 NaN, which
  arises in the code from `0/0` followed by `np.arccos`, is modelled as
  `Option ℝ` with `none` playing the role of NaN; comparisons against
  NaN are false, mirroring IEEE semantics.
* A pose frame is an association list from MediaPipe landmark ids to
  landmark tuples `(x, y, z, visibility)`.
* Python exceptions (`KeyError` from `landmarks[idx]` on a missing key,
  `AttributeError` from reading the absent `self.debug_values`
  attribute or from calling the dict method `.get` on a landmark
  tuple, `TypeError` from subscripting `None`) are modelled with an
  `Except PyErr` result; the state component returned alongside an
  error is the object state at the moment the exception is raised
  (Python leaves mutations made up to that point in place).
* Every producer of frames in this repository
  (`convert_mediapipe_landmarks`, both test suites) builds landmark
  *tuples* `(x, y, z, visibility)`, yet the base-class helpers
  `check_landmarks_visibility` and `get_landmark_position` read them
  dict-style with `.get(...)`: on these frames a *present* required id
  makes them raise `AttributeError`, so the detectors built on them
  (kick, lunge) can never classify a frame.  The tuple-style helper
  `are_landmarks_visible` (subscripting `landmark[3]`), used by the
  remaining detectors, works.
* Each detector's `detect` method becomes a state-passing function
  `State → List Frame → Except PyErr Bool × State`.
* The `debug_info` / `debug_values` dictionaries only ever receive
  diagnostic values and are never read back by the logic, so their
  contents are not carried in the state; the *absence* of the
  `debug_values` attribute in `SitupDetector` and `ArmCirclesDetector`
  (neither `__init__` defines it, yet `detect` calls
  `self.debug_values.update`) is modelled by the `AttributeError` exit.
-/

namespace FitFighter

open Real

/-- Python exceptions that the embedded code can raise. -/
inductive PyErr where
  | keyError : PyErr
  | attributeError : PyErr
  | typeError : PyErr
deriving DecidableEq, Repr

/-- A 2-dimensional point `(x, y)`. -/
abbrev P2 := ℝ × ℝ

/-- A 3-dimensional point `(x, y, z)`. -/
abbrev P3 := ℝ × ℝ × ℝ

/-- Difference of two 2-d points, `a - b`. -/
def sub2 (a b : P2) : P2 := (a.1 - b.1, a.2 - b.2)

/-- Difference of two 3-d points, `a - b`. -/
def sub3 (a b : P3) : P3 := (a.1 - b.1, a.2.1 - b.2.1, a.2.2 - b.2.2)

/-- Dot product in 2 dimensions. -/
def dot2 (u v : P2) : ℝ := u.1 * v.1 + u.2 * v.2

/-- Dot product in 3 dimensions. -/
def dot3 (u v : P3) : ℝ := u.1 * v.1 + u.2.1 * v.2.1 + u.2.2 * v.2.2

/-- Euclidean norm of a 2-d vector (`np.linalg.norm`). -/
noncomputable def norm2 (v : P2) : ℝ := Real.sqrt (v.1 ^ 2 + v.2 ^ 2)

/-- Euclidean norm of a 3-d vector (`np.linalg.norm`). -/
noncomputable def norm3 (v : P3) : ℝ := Real.sqrt (v.1 ^ 2 + v.2.1 ^ 2 + v.2.2 ^ 2)

/-- `np.clip(x, lo, hi)`. -/
noncomputable def clip (x lo hi : ℝ) : ℝ := max lo (min x hi)

/-- `np.degrees`: radians to degrees. -/
noncomputable def degrees (r : ℝ) : ℝ := r * 180 / π

/-- `calculate_2d_angle` from `fitfighter/utils/angle_calculator.py`:
angle at vertex `p2` between rays to `p1` and `p3`, with a guard
returning `0` when the product of the ray lengths is below `1e-10`. -/
noncomputable def calculate_2d_angle (p1 p2 p3 : P2) : ℝ :=
  let ba := sub2 p1 p2
  let bc := sub2 p3 p2
  let m := norm2 ba * norm2 bc
  if m < 1e-10 then 0
  else degrees (Real.arccos (clip (dot2 ba bc / m) (-1) 1))

/-- `calculate_3d_angle` from `fitfighter/utils/angle_calculator.py`. -/
noncomputable def calculate_3d_angle (p1 p2 p3 : P3) : ℝ :=
  let ba := sub3 p1 p2
  let bc := sub3 p3 p2
  let m := norm3 ba * norm3 bc
  if m < 1e-10 then 0
  else degrees (Real.arccos (clip (dot3 ba bc / m) (-1) 1))

/-- `BaseExerciseDetector.calculate_angle` from
`fitfighter/core/base_detector.py`.  It uses only the x and y
coordinates and has NO zero-length guard: when the product of the ray
lengths is zero the Python code divides `0` by `0`, producing NaN which
propagates through `np.clip` and `np.arccos`; this is modelled by
returning `none`. -/
noncomputable def base_calculate_angle (p1 p2 p3 : P2) : Option ℝ :=
  let ba := sub2 p1 p2
  let bc := sub2 p3 p2
  let m := norm2 ba * norm2 bc
  if m = 0 then none
  else some (degrees (Real.arccos (clip (dot2 ba bc / m) (-1) 1)))

/-- `BaseExerciseDetector.calculate_3d_angle` from
`fitfighter/core/base_detector.py`, again without a zero-length guard
(`none` models the NaN produced on a zero denominator). -/
noncomputable def base_calculate_3d_angle (p1 p2 p3 : P3) : Option ℝ :=
  let ba := sub3 p1 p2
  let bc := sub3 p3 p2
  let m := norm3 ba * norm3 bc
  if m = 0 then none
  else some (degrees (Real.arccos (clip (dot3 ba bc / m) (-1) 1)))

/-- `calculate_distance` from `fitfighter/utils/pose_processor.py`
(the non-`None` case; all call sites in the embedded detectors pass
concrete tuples). -/
noncomputable def pp_calculate_distance (p q : P3) : ℝ :=
  Real.sqrt ((p.1 - q.1) ^ 2 + (p.2.1 - q.2.1) ^ 2 + (p.2.2 - q.2.2) ^ 2)

/-- `BaseExerciseDetector.calculate_distance` (again the non-`None`
case): `(dx² + dy² + dz²) ** 0.5`. -/
noncomputable def base_calculate_distance (p q : P3) : ℝ :=
  Real.sqrt ((p.1 - q.1) ^ 2 + (p.2.1 - q.2.1) ^ 2 + (p.2.2 - q.2.2) ^ 2)

/-- A MediaPipe landmark `(x, y, z, visibility)`. -/
structure Landmark where
  x : ℝ
  y : ℝ
  z : ℝ
  visibility : ℝ

/-- The 3-d position of a landmark. -/
def Landmark.p3 (l : Landmark) : P3 := (l.x, l.y, l.z)

/-- The 2-d (x, y) position of a landmark. -/
def Landmark.p2 (l : Landmark) : P2 := (l.x, l.y)

/-- A pose frame: a mapping from landmark id to landmark, modelled as an
association list (`dict` in the source). -/
abbrev Frame := List (ℕ × Landmark)

/-- Dictionary lookup `landmarks.get(idx)`. -/
def Frame.find? (f : Frame) (idx : ℕ) : Option Landmark :=
  List.lookup idx f

/-- The loop over `required_landmarks` inside
`BaseExerciseDetector.check_landmarks_visibility` (`base_detector.py`
lines 64-70).  Each iteration first tests `if lm_idx not in landmarks:
return False`, then reads `landmarks[lm_idx].get("visibility", 0)` — a
*dict* method, while every frame this repository produces holds
landmark *tuples* — so the first required id that is present raises
`AttributeError`.  The threshold comparison below the `.get` call is
dead code on these frames (the `threshold` parameter is kept for the
call shape), and the loop can only run past its first iteration when
`required_landmarks` is empty. -/
def check_landmarks_visibility_go
    (landmarks : Frame) (_threshold : ℝ) : List ℕ → Except PyErr Bool
  | [] => .ok true
  | i :: _rest =>
    match landmarks.find? i with
    | none => .ok false
    | some _ => .error .attributeError

/-- `BaseExerciseDetector.check_landmarks_visibility`: the dict-style
visibility check.  `False` for an empty frame (`if not landmarks`),
`False` when the first required id is absent, `AttributeError` when it
is present (tuple landmarks have no `.get`), and `True` only for an
empty requirement list. -/
def check_landmarks_visibility
    (threshold : ℝ) (landmarks : Frame) (required : List ℕ) : Except PyErr Bool :=
  if landmarks.isEmpty then .ok false
  else check_landmarks_visibility_go landmarks threshold required

/-- `BaseExerciseDetector.are_landmarks_visible`: the tuple-based
visibility check.  It subscripts `landmarks[idx]` without a membership
test, so a missing id raises `KeyError`; a present landmark whose
`visibility` (`landmark[3]`) is below the threshold yields `False`. -/
noncomputable def are_landmarks_visible
    (threshold : ℝ) (landmarks : Frame) : List ℕ → Except PyErr Bool
  | [] => .ok true
  | i :: rest =>
    match landmarks.find? i with
    | none => .error .keyError
    | some l =>
      if l.visibility < threshold then .ok false
      else are_landmarks_visible threshold landmarks rest

/-- `BaseExerciseDetector.get_landmark_position` (`base_detector.py`
lines 85-94): `None` when the frame is empty or the id absent
(`if not landmarks or landmark_idx not in landmarks`); for a present id
the code then calls `lm.get("visibility", 0)` on a landmark *tuple*,
raising `AttributeError` — the visibility comparison and the `(x, y, z)`
tuple construction below it are dead code on this repository's frames
(the `threshold` parameter is kept for the call shape). -/
def get_landmark_position
    (_threshold : ℝ) (landmarks : Frame) (idx : ℕ) : Except PyErr (Option P3) :=
  if landmarks.isEmpty then .ok none
  else
    match landmarks.find? idx with
    | none => .ok none
    | some _ => .error .attributeError

/-- The dict-style check never returns `ok True` for a non-empty
requirement list: the first required id is either absent (`ok False`)
or present (`AttributeError`). -/
theorem check_landmarks_visibility_ne_ok_true (t : ℝ) (f : Frame) (i : ℕ)
    (rest : List ℕ) : check_landmarks_visibility t f (i :: rest) ≠ .ok true := by
  unfold check_landmarks_visibility
  split
  · simp
  · rw [check_landmarks_visibility_go]
    cases f.find? i <;> simp

/-- The dict-style check raises `AttributeError` exactly on a present
first required id (in a non-empty frame). -/
theorem check_landmarks_visibility_present (t : ℝ) (f : Frame) (i : ℕ)
    (rest : List ℕ) (l : Landmark) (hne : ¬ f.isEmpty = true)
    (hf : f.find? i = some l) :
    check_landmarks_visibility t f (i :: rest) = .error .attributeError := by
  unfold check_landmarks_visibility
  rw [if_neg hne, check_landmarks_visibility_go, hf]

/-- The dict-style check returns `ok False` when the first required id
is absent from a non-empty frame. -/
theorem check_landmarks_visibility_absent (t : ℝ) (f : Frame) (i : ℕ)
    (rest : List ℕ) (hne : ¬ f.isEmpty = true) (hf : f.find? i = none) :
    check_landmarks_visibility t f (i :: rest) = .ok false := by
  unfold check_landmarks_visibility
  rw [if_neg hne, check_landmarks_visibility_go, hf]

/-- Python `deque(maxlen := m).append`: append on the right, evicting
from the left once the length exceeds `m`. -/
def dequeAppend (maxlen : ℕ) (xs : List α) (x : α) : List α :=
  let ys := xs ++ [x]
  if maxlen < ys.length then ys.drop (ys.length - maxlen) else ys

/-- Negative indexing `h[-k]` on a Python list. -/
def negGet (h : List α) (k : ℕ) : Option α :=
  h.get? (h.length - k)

/-! ### Range facts for the angle helpers -/

/-- The degree value of an arccos result is in `[0, 180]`. -/
theorem degrees_arccos_mem (x : ℝ) :
    0 ≤ degrees (Real.arccos x) ∧ degrees (Real.arccos x) ≤ 180 := by
  unfold degrees
  constructor
  · have h1 := Real.arccos_nonneg x
    positivity
  · have h1 := Real.arccos_le_pi x
    rw [div_le_iff₀ Real.pi_pos]
    nlinarith [Real.pi_pos]

/-- Claim C8 (counterexample): `BaseExerciseDetector.calculate_angle`
does NOT return the 0° sentinel (nor any value in `[0, 180]`) on a
zero-length ray: with `p1 = p2` the Python code divides by zero and the
resulting NaN propagates through `np.clip` and `np.arccos`, so the call
returns NaN (modelled `none`) rather than a defined angle. -/
theorem C8_base_angle_nan_counterexample :
    base_calculate_angle ((0 : ℝ), (0 : ℝ)) ((0 : ℝ), (0 : ℝ)) ((1 : ℝ), (0 : ℝ)) = none := by
  unfold base_calculate_angle
  simp [norm2, sub2]

/-- Claim C8 (amended): the `angle_calculator` helpers
`calculate_2d_angle` / `calculate_3d_angle` always return a value in
`[0, 180]` degrees, returning the 0° sentinel when the product of ray
lengths is below `1e-10`; the base-class helpers
`BaseExerciseDetector.calculate_angle` / `calculate_3d_angle` do clamp
the cosine with `np.clip` and return a value in `[0, 180]` whenever
both rays have nonzero length, but lack the zero-length guard: on a
zero-length ray they divide `0` by `0` and `np.clip` propagates the
NaN to `np.arccos` (`none`) instead of the 0° sentinel. -/
theorem C8_angle_helpers_range :
    (∀ a b c : P2, 0 ≤ calculate_2d_angle a b c ∧ calculate_2d_angle a b c ≤ 180) ∧
    (∀ a b c : P3, 0 ≤ calculate_3d_angle a b c ∧ calculate_3d_angle a b c ≤ 180) ∧
    (∀ a b c : P2, norm2 (sub2 a b) * norm2 (sub2 c b) < 1e-10 →
      calculate_2d_angle a b c = 0) ∧
    (∀ a b c : P3, norm3 (sub3 a b) * norm3 (sub3 c b) < 1e-10 →
      calculate_3d_angle a b c = 0) ∧
    (∀ a b c : P2, norm2 (sub2 a b) * norm2 (sub2 c b) ≠ 0 →
      ∃ v, base_calculate_angle a b c = some v ∧ 0 ≤ v ∧ v ≤ 180) ∧
    (∀ a b c : P3, norm3 (sub3 a b) * norm3 (sub3 c b) ≠ 0 →
      ∃ v, base_calculate_3d_angle a b c = some v ∧ 0 ≤ v ∧ v ≤ 180) ∧
    (∀ a b c : P2, norm2 (sub2 a b) * norm2 (sub2 c b) = 0 →
      base_calculate_angle a b c = none) ∧
    (∀ a b c : P3, norm3 (sub3 a b) * norm3 (sub3 c b) = 0 →
      base_calculate_3d_angle a b c = none) := by
  refine ⟨?_, ?_, ?_, ?_, ?_, ?_, ?_, ?_⟩
  · intro a b c
    unfold calculate_2d_angle
    dsimp only
    split
    · norm_num
    · exact degrees_arccos_mem _
  · intro a b c
    unfold calculate_3d_angle
    dsimp only
    split
    · norm_num
    · exact degrees_arccos_mem _
  · intro a b c h
    unfold calculate_2d_angle
    rw [if_pos h]
  · intro a b c h
    unfold calculate_3d_angle
    rw [if_pos h]
  · intro a b c h
    refine ⟨degrees (Real.arccos (clip (dot2 (sub2 a b) (sub2 c b) /
      (norm2 (sub2 a b) * norm2 (sub2 c b))) (-1) 1)), ?_, ?_, ?_⟩
    · unfold base_calculate_angle
      rw [if_neg h]
    · exact (degrees_arccos_mem _).1
    · exact (degrees_arccos_mem _).2
  · intro a b c h
    refine ⟨degrees (Real.arccos (clip (dot3 (sub3 a b) (sub3 c b) /
      (norm3 (sub3 a b) * norm3 (sub3 c b))) (-1) 1)), ?_, ?_, ?_⟩
    · unfold base_calculate_3d_angle
      rw [if_neg h]
    · exact (degrees_arccos_mem _).1
    · exact (degrees_arccos_mem _).2
  · intro a b c h
    unfold base_calculate_angle
    rw [if_pos h]
  · intro a b c h
    unfold base_calculate_3d_angle
    rw [if_pos h]

/-- Witness for C8: concrete instances discharging the hypotheses of
`C8_angle_helpers_range` — degenerate 2-d and 3-d inputs hit the 0°
sentinel of the `angle_calculator` helpers and the NaN of the
base-class 3-d helper, and non-degenerate base-class inputs yield a
value in `[0, 180]`. -/
theorem C8_angle_helpers_range_witness :
    calculate_2d_angle ((0 : ℝ), (0 : ℝ)) ((0 : ℝ), (0 : ℝ)) ((1 : ℝ), (0 : ℝ)) = 0 ∧
    calculate_3d_angle ((0 : ℝ), (0 : ℝ), (0 : ℝ)) ((0 : ℝ), (0 : ℝ), (0 : ℝ))
      ((1 : ℝ), (0 : ℝ), (0 : ℝ)) = 0 ∧
    (∃ v, base_calculate_angle ((1 : ℝ), (0 : ℝ)) ((0 : ℝ), (0 : ℝ)) ((0 : ℝ), (1 : ℝ)) = some v ∧
      0 ≤ v ∧ v ≤ 180) ∧
    (∃ v, base_calculate_3d_angle ((1 : ℝ), (0 : ℝ), (0 : ℝ)) ((0 : ℝ), (0 : ℝ), (0 : ℝ))
      ((0 : ℝ), (1 : ℝ), (0 : ℝ)) = some v ∧ 0 ≤ v ∧ v ≤ 180) ∧
    base_calculate_3d_angle ((0 : ℝ), (0 : ℝ), (0 : ℝ)) ((0 : ℝ), (0 : ℝ), (0 : ℝ))
      ((1 : ℝ), (0 : ℝ), (0 : ℝ)) = none := by
  have hz2 : norm2 (sub2 ((0 : ℝ), (0 : ℝ)) ((0 : ℝ), (0 : ℝ))) = 0 := by
    unfold norm2 sub2
    norm_num
  have hz3 : norm3 (sub3 ((0 : ℝ), (0 : ℝ), (0 : ℝ)) ((0 : ℝ), (0 : ℝ), (0 : ℝ))) = 0 := by
    unfold norm3 sub3
    norm_num
  have h12 : norm2 (sub2 ((1 : ℝ), (0 : ℝ)) ((0 : ℝ), (0 : ℝ))) = 1 := by
    unfold norm2 sub2
    norm_num
  have h22 : norm2 (sub2 ((0 : ℝ), (1 : ℝ)) ((0 : ℝ), (0 : ℝ))) = 1 := by
    unfold norm2 sub2
    norm_num
  have h13 : norm3 (sub3 ((1 : ℝ), (0 : ℝ), (0 : ℝ)) ((0 : ℝ), (0 : ℝ), (0 : ℝ))) = 1 := by
    unfold norm3 sub3
    norm_num
  have h23 : norm3 (sub3 ((0 : ℝ), (1 : ℝ), (0 : ℝ)) ((0 : ℝ), (0 : ℝ), (0 : ℝ))) = 1 := by
    unfold norm3 sub3
    norm_num
  refine ⟨?_, ?_, ?_, ?_, ?_⟩
  · apply C8_angle_helpers_range.2.2.1
    rw [hz2]
    norm_num
  · apply C8_angle_helpers_range.2.2.2.1
    rw [hz3]
    norm_num
  · apply C8_angle_helpers_range.2.2.2.2.1
    rw [h12, h22]
    norm_num
  · apply C8_angle_helpers_range.2.2.2.2.2.1
    rw [h13, h23]
    norm_num
  · apply C8_angle_helpers_range.2.2.2.2.2.2.2
    rw [hz3]
    ring

/-! ### Jumping-jack detector (`fitfighter/detectors/jumping_jack_detector.py`) -/

/-- State of `JumpingJackDetector`.  Configuration fields come first
(set in `__init__`, never modified by `detect`), then the dynamic
state. -/
structure JJState where
  confidenceThreshold : ℝ
  historySize : ℕ
  armAngleThreshold : ℝ
  legWidthThreshold : ℝ
  cooldownFrames : ℕ
  repCount : ℕ
  isActive : Bool
  lastDetectionState : Bool
  cooldownCounter : ℕ
  inOpenPosition : Bool
  inClosedPosition : Bool
  positionHistory : List (Bool × Bool)
  currentPhase : String

/-- `JumpingJackDetector.__init__`. -/
def jjInit (ct : ℝ) (hs : ℕ) : JJState :=
  { confidenceThreshold := ct
    historySize := hs
    armAngleThreshold := 60
    legWidthThreshold := 0.15
    cooldownFrames := 10
    repCount := 0
    isActive := false
    lastDetectionState := false
    cooldownCounter := 0
    inOpenPosition := false
    inClosedPosition := false
    positionHistory := []
    currentPhase := "unknown" }

/-- `JumpingJackDetector.reset`: `super().reset()` (rep count, active
flag, last detection state, debug info) plus the detector's own
transient state. -/
def jjReset (s : JJState) : JJState :=
  { s with
    repCount := 0, isActive := false, lastDetectionState := false,
    cooldownCounter := 0, inOpenPosition := false, inClosedPosition := false,
    positionHistory := [], currentPhase := "unknown" }

/-- The `required_landmarks` list of `JumpingJackDetector.detect`. -/
def jjRequired : List ℕ := [11, 12, 13, 14, 15, 16, 23, 24, 25, 26, 27, 28]

/-- Lines 134-177 of `jumping_jack_detector.py`: the pure phase /
rep-counting logic applied once the current frame has been classified
into the `(is_open, is_closed)` pair. -/
def jjPhaseLogic (s : JJState) (isOpen isClosed : Bool) : Bool × JJState :=
  let ph := dequeAppend 5 s.positionHistory (isOpen, isClosed)
  if 3 ≤ ph.length then
    let openCount := (ph.filter (fun p => p.1)).length
    let closedCount := (ph.filter (fun p => p.2)).length
    let newPhase :=
      if ph.length - 1 ≤ openCount then "open"
      else if ph.length - 1 ≤ closedCount then "closed"
      else if s.currentPhase = "closed" ∨ s.currentPhase = "closing" then "opening"
      else if s.currentPhase = "open" ∨ s.currentPhase = "opening" then "closing"
      else "unknown"
    let s' :=
      if s.currentPhase = "open" ∧ newPhase = "closing" then
        { s with isActive := true }
      else if s.currentPhase = "closing" ∧ newPhase = "closed" ∧ s.isActive then
        { s with
          repCount := s.repCount + 1, cooldownCounter := s.cooldownFrames,
          isActive := false }
      else s
    let s'' := { s' with positionHistory := ph, currentPhase := newPhase }
    (s''.isActive, { s'' with lastDetectionState := s''.isActive })
  else
    (s.isActive, { s with positionHistory := ph, lastDetectionState := s.isActive })

/-- `JumpingJackDetector.detect`.  The hip landmarks are fetched in the
source only to compute a debug-level `hip_height`; they are present
whenever the visibility gate passes and are not modelled further. -/
noncomputable def jjDetect (s : JJState) (h : List Frame) : Except PyErr Bool × JJState :=
  if h.length < 2 then (.ok false, s)
  else if 0 < s.cooldownCounter then
    (.ok false, { s with cooldownCounter := s.cooldownCounter - 1 })
  else
    match negGet h 1 with
    | none => (.error .keyError, s)
    | some current =>
      match are_landmarks_visible s.confidenceThreshold current jjRequired with
      | .error e => (.error e, s)
      | .ok false => (.ok false, { s with currentPhase := "unknown" })
      | .ok true =>
        match current.find? 11, current.find? 12, current.find? 15,
              current.find? 16, current.find? 27, current.find? 28 with
        | some ls, some rs, some lw, some rw, some la, some ra =>
          let leftArmAngle := calculate_2d_angle rs.p2 ls.p2 lw.p2
          let rightArmAngle := calculate_2d_angle ls.p2 rs.p2 rw.p2
          let shoulderWidth := pp_calculate_distance ls.p3 rs.p3
          let ankleWidth := pp_calculate_distance la.p3 ra.p3
          let normalizedLegWidth :=
            if 0 < shoulderWidth then ankleWidth / shoulderWidth else 0
          let isOpen := decide (s.armAngleThreshold < leftArmAngle ∧
            s.armAngleThreshold < rightArmAngle ∧
            s.legWidthThreshold < normalizedLegWidth)
          let isClosed := decide (leftArmAngle < s.armAngleThreshold / 2 ∧
            rightArmAngle < s.armAngleThreshold / 2 ∧
            normalizedLegWidth < s.legWidthThreshold / 2)
          let r := jjPhaseLogic s isOpen isClosed
          (.ok r.1, r.2)
        | _, _, _, _, _, _ => (.error .keyError, s)

/-! ### Concrete frames from `tests/test_jumping_jack_detector.py` -/

/-- Abbreviation for building a landmark tuple. -/
def lmk (x y z v : ℝ) : Landmark := ⟨x, y, z, v⟩

/-- The "closed position" fixture frame of
`test_jumping_jack_full_cycle` (arms down, legs together). -/
noncomputable def jjClosedFrame : Frame :=
  [(11, lmk 0.4 0.3 0 1), (12, lmk 0.6 0.3 0 1),
   (13, lmk 0.35 0.45 0 1), (14, lmk 0.65 0.45 0 1),
   (15, lmk 0.35 0.6 0 1), (16, lmk 0.65 0.6 0 1),
   (23, lmk 0.45 0.6 0 1), (24, lmk 0.55 0.6 0 1),
   (25, lmk 0.45 0.75 0 1), (26, lmk 0.55 0.75 0 1),
   (27, lmk 0.45 0.9 0 1), (28, lmk 0.55 0.9 0 1)]

/-- The "open position" fixture frame of
`test_jumping_jack_full_cycle` (arms up, legs apart). -/
noncomputable def jjOpenFrame : Frame :=
  [(11, lmk 0.4 0.3 0 1), (12, lmk 0.6 0.3 0 1),
   (13, lmk 0.3 0.2 0 1), (14, lmk 0.7 0.2 0 1),
   (15, lmk 0.2 0.1 0 1), (16, lmk 0.8 0.1 0 1),
   (23, lmk 0.45 0.6 0 1), (24, lmk 0.55 0.6 0 1),
   (25, lmk 0.35 0.75 0 1), (26, lmk 0.65 0.75 0 1),
   (27, lmk 0.25 0.9 0 1), (28, lmk 0.75 0.9 0 1)]

/-- The partial frame of `test_detect_with_missing_landmarks`: only the
two shoulder landmarks are present. -/
noncomputable def jjShouldersOnlyFrame : Frame :=
  [(11, lmk 0.4 0.3 0 1), (12, lmk 0.6 0.3 0 1)]

/-- If `a² ≤ x` with `a ≥ 0` then `a ≤ √x`. -/
theorem le_sqrt_of_sq_le {a x : ℝ} (_ha : 0 ≤ a) (h : a ^ 2 ≤ x) :
    a ≤ Real.sqrt x := by
  have hx : 0 ≤ x := le_trans (by positivity) h
  nlinarith [Real.sq_sqrt hx, Real.sqrt_nonneg x]

/-- A negative normalized dot product forces the 2-d angle above 90°,
hence above the 60° open threshold and not below the 30° closed
threshold. -/
theorem calc2d_angle_of_dot_neg (a b c : P2)
    (hdot : dot2 (sub2 a b) (sub2 c b) < 0)
    (hm : (1e-10 : ℝ) ≤ norm2 (sub2 a b) * norm2 (sub2 c b)) :
    60 < calculate_2d_angle a b c ∧ ¬ calculate_2d_angle a b c < 30 := by
  have hmpos : 0 < norm2 (sub2 a b) * norm2 (sub2 c b) := by linarith
  have hcos : dot2 (sub2 a b) (sub2 c b) / (norm2 (sub2 a b) * norm2 (sub2 c b)) ≤ 0 :=
    le_of_lt (div_neg_of_neg_of_pos hdot hmpos)
  have hclip : clip (dot2 (sub2 a b) (sub2 c b) /
      (norm2 (sub2 a b) * norm2 (sub2 c b))) (-1) 1 ≤ 0 := by
    unfold clip
    apply max_le (by norm_num)
    exact le_trans (min_le_left _ _) hcos
  have harc : π / 2 ≤ Real.arccos (clip (dot2 (sub2 a b) (sub2 c b) /
      (norm2 (sub2 a b) * norm2 (sub2 c b))) (-1) 1) := by
    by_contra hlt
    push_neg at hlt
    have := Real.arccos_lt_pi_div_two.mp hlt
    linarith
  have hdeg : 90 ≤ degrees (Real.arccos (clip (dot2 (sub2 a b) (sub2 c b) /
      (norm2 (sub2 a b) * norm2 (sub2 c b))) (-1) 1)) := by
    unfold degrees
    rw [le_div_iff₀ Real.pi_pos]
    nlinarith [Real.pi_pos]
  unfold calculate_2d_angle
  dsimp only
  rw [if_neg (not_lt.mpr hm)]
  constructor
  · linarith
  · linarith

/-- Lower bound for a product of two 2-d norms. -/
theorem norm2_prod_ge (v w : P2) (a b : ℝ) (ha : 0 ≤ a) (hb : 0 ≤ b)
    (hva : a ^ 2 ≤ v.1 ^ 2 + v.2 ^ 2) (hwb : b ^ 2 ≤ w.1 ^ 2 + w.2 ^ 2)
    (hab : (1e-10 : ℝ) ≤ a * b) : (1e-10 : ℝ) ≤ norm2 v * norm2 w := by
  unfold norm2
  have h1 := le_sqrt_of_sq_le ha hva
  have h2 := le_sqrt_of_sq_le hb hwb
  calc (1e-10 : ℝ) ≤ a * b := hab
    _ ≤ Real.sqrt (v.1 ^ 2 + v.2 ^ 2) * Real.sqrt (w.1 ^ 2 + w.2 ^ 2) := by
        apply mul_le_mul h1 h2 hb
        exact Real.sqrt_nonneg _

/-- Exact value of `pp_calculate_distance` when the squared distance is
a perfect square. -/
theorem pp_distance_eq (p q : P3) (d : ℝ) (hd : 0 ≤ d)
    (h : (p.1 - q.1) ^ 2 + (p.2.1 - q.2.1) ^ 2 + (p.2.2 - q.2.2) ^ 2 = d ^ 2) :
    pp_calculate_distance p q = d := by
  unfold pp_calculate_distance
  rw [h]
  exact Real.sqrt_sq hd

/-- Generic evaluation of `jjDetect` on a frame whose landmarks are
visible, reducing it to `jjPhaseLogic` applied to the frame's
open/closed classification. -/
theorem jjDetect_eval (s : JJState) (h : List Frame) (current : Frame)
    (hcd : s.cooldownCounter = 0) (hlen : 2 ≤ h.length)
    (hlast : negGet h 1 = some current)
    (hvis : are_landmarks_visible s.confidenceThreshold current jjRequired = .ok true)
    (ls rs lw rw la ra : Landmark)
    (h11 : current.find? 11 = some ls) (h12 : current.find? 12 = some rs)
    (h15 : current.find? 15 = some lw) (h16 : current.find? 16 = some rw)
    (h27 : current.find? 27 = some la) (h28 : current.find? 28 = some ra)
    (bO bC : Bool)
    (hO : decide (s.armAngleThreshold < calculate_2d_angle rs.p2 ls.p2 lw.p2 ∧
      s.armAngleThreshold < calculate_2d_angle ls.p2 rs.p2 rw.p2 ∧
      s.legWidthThreshold <
        (if 0 < pp_calculate_distance ls.p3 rs.p3 then
          pp_calculate_distance la.p3 ra.p3 / pp_calculate_distance ls.p3 rs.p3
        else 0)) = bO)
    (hC : decide (calculate_2d_angle rs.p2 ls.p2 lw.p2 < s.armAngleThreshold / 2 ∧
      calculate_2d_angle ls.p2 rs.p2 rw.p2 < s.armAngleThreshold / 2 ∧
      (if 0 < pp_calculate_distance ls.p3 rs.p3 then
        pp_calculate_distance la.p3 ra.p3 / pp_calculate_distance ls.p3 rs.p3
      else 0) < s.legWidthThreshold / 2) = bC) :
    jjDetect s h = (.ok (jjPhaseLogic s bO bC).1, (jjPhaseLogic s bO bC).2) := by
  unfold jjDetect
  rw [if_neg (Nat.not_lt.mpr hlen), hcd]
  rw [if_neg (lt_irrefl 0)]
  rw [hlast]
  simp only [hvis, h11, h12, h15, h16, h27, h28, hO, hC]

/-- One visible landmark step of the `are_landmarks_visible` loop. -/
theorem are_landmarks_visible_cons (t : ℝ) (f : Frame) (i : ℕ) (rest : List ℕ)
    (l : Landmark) (hfind : f.find? i = some l) (hvis : ¬ l.visibility < t) :
    are_landmarks_visible t f (i :: rest) = are_landmarks_visible t f rest := by
  simp only [are_landmarks_visible, hfind]
  exact if_neg hvis

/-- A missing landmark makes `are_landmarks_visible` raise `KeyError`. -/
theorem are_landmarks_visible_missing (t : ℝ) (f : Frame) (i : ℕ) (rest : List ℕ)
    (hfind : f.find? i = none) :
    are_landmarks_visible t f (i :: rest) = .error .keyError := by
  simp only [are_landmarks_visible, hfind]

/-- All required landmarks of the closed fixture frame are visible. -/
theorem jjClosedFrame_visible :
    are_landmarks_visible 0.6 jjClosedFrame jjRequired = .ok true := by
  unfold jjRequired
  rw [are_landmarks_visible_cons 0.6 jjClosedFrame 11 _ _ rfl (by norm_num [lmk]),
    are_landmarks_visible_cons 0.6 jjClosedFrame 12 _ _ rfl (by norm_num [lmk]),
    are_landmarks_visible_cons 0.6 jjClosedFrame 13 _ _ rfl (by norm_num [lmk]),
    are_landmarks_visible_cons 0.6 jjClosedFrame 14 _ _ rfl (by norm_num [lmk]),
    are_landmarks_visible_cons 0.6 jjClosedFrame 15 _ _ rfl (by norm_num [lmk]),
    are_landmarks_visible_cons 0.6 jjClosedFrame 16 _ _ rfl (by norm_num [lmk]),
    are_landmarks_visible_cons 0.6 jjClosedFrame 23 _ _ rfl (by norm_num [lmk]),
    are_landmarks_visible_cons 0.6 jjClosedFrame 24 _ _ rfl (by norm_num [lmk]),
    are_landmarks_visible_cons 0.6 jjClosedFrame 25 _ _ rfl (by norm_num [lmk]),
    are_landmarks_visible_cons 0.6 jjClosedFrame 26 _ _ rfl (by norm_num [lmk]),
    are_landmarks_visible_cons 0.6 jjClosedFrame 27 _ _ rfl (by norm_num [lmk]),
    are_landmarks_visible_cons 0.6 jjClosedFrame 28 _ _ rfl (by norm_num [lmk])]
  rfl

/-- All required landmarks of the open fixture frame are visible. -/
theorem jjOpenFrame_visible :
    are_landmarks_visible 0.6 jjOpenFrame jjRequired = .ok true := by
  unfold jjRequired
  rw [are_landmarks_visible_cons 0.6 jjOpenFrame 11 _ _ rfl (by norm_num [lmk]),
    are_landmarks_visible_cons 0.6 jjOpenFrame 12 _ _ rfl (by norm_num [lmk]),
    are_landmarks_visible_cons 0.6 jjOpenFrame 13 _ _ rfl (by norm_num [lmk]),
    are_landmarks_visible_cons 0.6 jjOpenFrame 14 _ _ rfl (by norm_num [lmk]),
    are_landmarks_visible_cons 0.6 jjOpenFrame 15 _ _ rfl (by norm_num [lmk]),
    are_landmarks_visible_cons 0.6 jjOpenFrame 16 _ _ rfl (by norm_num [lmk]),
    are_landmarks_visible_cons 0.6 jjOpenFrame 23 _ _ rfl (by norm_num [lmk]),
    are_landmarks_visible_cons 0.6 jjOpenFrame 24 _ _ rfl (by norm_num [lmk]),
    are_landmarks_visible_cons 0.6 jjOpenFrame 25 _ _ rfl (by norm_num [lmk]),
    are_landmarks_visible_cons 0.6 jjOpenFrame 26 _ _ rfl (by norm_num [lmk]),
    are_landmarks_visible_cons 0.6 jjOpenFrame 27 _ _ rfl (by norm_num [lmk]),
    are_landmarks_visible_cons 0.6 jjOpenFrame 28 _ _ rfl (by norm_num [lmk])]
  rfl

/-- Arm-angle facts for the closed fixture frame: both arm angles are
above 90° (the dot products are negative), so above the 60° "open"
threshold and not below the 30° "closed" threshold. -/
theorem jjClosed_left_arm :
    60 < calculate_2d_angle (lmk 0.6 0.3 0 1).p2 (lmk 0.4 0.3 0 1).p2 (lmk 0.35 0.6 0 1).p2 ∧
    ¬ calculate_2d_angle (lmk 0.6 0.3 0 1).p2 (lmk 0.4 0.3 0 1).p2 (lmk 0.35 0.6 0 1).p2 < 30 :=
  calc2d_angle_of_dot_neg _ _ _
    (by norm_num [dot2, sub2, Landmark.p2, lmk])
    (norm2_prod_ge _ _ 0.2 0.1 (by norm_num) (by norm_num)
      (by norm_num [sub2, Landmark.p2, lmk])
      (by norm_num [sub2, Landmark.p2, lmk]) (by norm_num))

/-- Right-arm angle facts for the closed fixture frame. -/
theorem jjClosed_right_arm :
    60 < calculate_2d_angle (lmk 0.4 0.3 0 1).p2 (lmk 0.6 0.3 0 1).p2 (lmk 0.65 0.6 0 1).p2 ∧
    ¬ calculate_2d_angle (lmk 0.4 0.3 0 1).p2 (lmk 0.6 0.3 0 1).p2 (lmk 0.65 0.6 0 1).p2 < 30 :=
  calc2d_angle_of_dot_neg _ _ _
    (by norm_num [dot2, sub2, Landmark.p2, lmk])
    (norm2_prod_ge _ _ 0.2 0.1 (by norm_num) (by norm_num)
      (by norm_num [sub2, Landmark.p2, lmk])
      (by norm_num [sub2, Landmark.p2, lmk]) (by norm_num))

/-- Left-arm angle facts for the open fixture frame. -/
theorem jjOpen_left_arm :
    60 < calculate_2d_angle (lmk 0.6 0.3 0 1).p2 (lmk 0.4 0.3 0 1).p2 (lmk 0.2 0.1 0 1).p2 ∧
    ¬ calculate_2d_angle (lmk 0.6 0.3 0 1).p2 (lmk 0.4 0.3 0 1).p2 (lmk 0.2 0.1 0 1).p2 < 30 :=
  calc2d_angle_of_dot_neg _ _ _
    (by norm_num [dot2, sub2, Landmark.p2, lmk])
    (norm2_prod_ge _ _ 0.2 0.1 (by norm_num) (by norm_num)
      (by norm_num [sub2, Landmark.p2, lmk])
      (by norm_num [sub2, Landmark.p2, lmk]) (by norm_num))

/-- Right-arm angle facts for the open fixture frame. -/
theorem jjOpen_right_arm :
    60 < calculate_2d_angle (lmk 0.4 0.3 0 1).p2 (lmk 0.6 0.3 0 1).p2 (lmk 0.8 0.1 0 1).p2 ∧
    ¬ calculate_2d_angle (lmk 0.4 0.3 0 1).p2 (lmk 0.6 0.3 0 1).p2 (lmk 0.8 0.1 0 1).p2 < 30 :=
  calc2d_angle_of_dot_neg _ _ _
    (by norm_num [dot2, sub2, Landmark.p2, lmk])
    (norm2_prod_ge _ _ 0.2 0.1 (by norm_num) (by norm_num)
      (by norm_num [sub2, Landmark.p2, lmk])
      (by norm_num [sub2, Landmark.p2, lmk]) (by norm_num))

/-- The shoulder width of both fixture frames. -/
theorem jj_shoulder_width :
    pp_calculate_distance (lmk 0.4 0.3 0 1).p3 (lmk 0.6 0.3 0 1).p3 = 0.2 :=
  pp_distance_eq _ _ 0.2 (by norm_num) (by norm_num [Landmark.p3, lmk])

/-- The ankle separation of the closed fixture frame. -/
theorem jjClosed_ankle_width :
    pp_calculate_distance (lmk 0.45 0.9 0 1).p3 (lmk 0.55 0.9 0 1).p3 = 0.1 :=
  pp_distance_eq _ _ 0.1 (by norm_num) (by norm_num [Landmark.p3, lmk])

/-- The ankle separation of the open fixture frame. -/
theorem jjOpen_ankle_width :
    pp_calculate_distance (lmk 0.25 0.9 0 1).p3 (lmk 0.75 0.9 0 1).p3 = 0.5 :=
  pp_distance_eq _ _ 0.5 (by norm_num) (by norm_num [Landmark.p3, lmk])

/-- The closed fixture frame classifies as `(is_open, is_closed) =
(True, False)`: its normalized ankle separation `0.1 / 0.2 = 0.5`
exceeds the 0.15 open threshold and its arm angles exceed 60°. -/
theorem jjClosedFrame_is_open :
    decide ((60 : ℝ) <
        calculate_2d_angle (lmk 0.6 0.3 0 1).p2 (lmk 0.4 0.3 0 1).p2 (lmk 0.35 0.6 0 1).p2 ∧
      (60 : ℝ) <
        calculate_2d_angle (lmk 0.4 0.3 0 1).p2 (lmk 0.6 0.3 0 1).p2 (lmk 0.65 0.6 0 1).p2 ∧
      (0.15 : ℝ) <
        (if 0 < pp_calculate_distance (lmk 0.4 0.3 0 1).p3 (lmk 0.6 0.3 0 1).p3 then
          pp_calculate_distance (lmk 0.45 0.9 0 1).p3 (lmk 0.55 0.9 0 1).p3 /
            pp_calculate_distance (lmk 0.4 0.3 0 1).p3 (lmk 0.6 0.3 0 1).p3
        else 0)) = true := by
  apply decide_eq_true
  refine ⟨jjClosed_left_arm.1, jjClosed_right_arm.1, ?_⟩
  rw [jj_shoulder_width, jjClosed_ankle_width]
  norm_num

/-- The closed fixture frame does NOT classify as closed. -/
theorem jjClosedFrame_not_closed :
    decide ((calculate_2d_angle (lmk 0.6 0.3 0 1).p2 (lmk 0.4 0.3 0 1).p2 (lmk 0.35 0.6 0 1).p2 <
        (60 : ℝ) / 2) ∧
      (calculate_2d_angle (lmk 0.4 0.3 0 1).p2 (lmk 0.6 0.3 0 1).p2 (lmk 0.65 0.6 0 1).p2 <
        (60 : ℝ) / 2) ∧
      ((if 0 < pp_calculate_distance (lmk 0.4 0.3 0 1).p3 (lmk 0.6 0.3 0 1).p3 then
          pp_calculate_distance (lmk 0.45 0.9 0 1).p3 (lmk 0.55 0.9 0 1).p3 /
            pp_calculate_distance (lmk 0.4 0.3 0 1).p3 (lmk 0.6 0.3 0 1).p3
        else 0) < (0.15 : ℝ) / 2)) = false := by
  apply decide_eq_false
  rintro ⟨h1, -, -⟩
  exact jjClosed_left_arm.2 (by linarith)

/-- The open fixture frame classifies as open. -/
theorem jjOpenFrame_is_open :
    decide ((60 : ℝ) <
        calculate_2d_angle (lmk 0.6 0.3 0 1).p2 (lmk 0.4 0.3 0 1).p2 (lmk 0.2 0.1 0 1).p2 ∧
      (60 : ℝ) <
        calculate_2d_angle (lmk 0.4 0.3 0 1).p2 (lmk 0.6 0.3 0 1).p2 (lmk 0.8 0.1 0 1).p2 ∧
      (0.15 : ℝ) <
        (if 0 < pp_calculate_distance (lmk 0.4 0.3 0 1).p3 (lmk 0.6 0.3 0 1).p3 then
          pp_calculate_distance (lmk 0.25 0.9 0 1).p3 (lmk 0.75 0.9 0 1).p3 /
            pp_calculate_distance (lmk 0.4 0.3 0 1).p3 (lmk 0.6 0.3 0 1).p3
        else 0)) = true := by
  apply decide_eq_true
  refine ⟨jjOpen_left_arm.1, jjOpen_right_arm.1, ?_⟩
  rw [jj_shoulder_width, jjOpen_ankle_width]
  norm_num

/-- The open fixture frame does not classify as closed. -/
theorem jjOpenFrame_not_closed :
    decide ((calculate_2d_angle (lmk 0.6 0.3 0 1).p2 (lmk 0.4 0.3 0 1).p2 (lmk 0.2 0.1 0 1).p2 <
        (60 : ℝ) / 2) ∧
      (calculate_2d_angle (lmk 0.4 0.3 0 1).p2 (lmk 0.6 0.3 0 1).p2 (lmk 0.8 0.1 0 1).p2 <
        (60 : ℝ) / 2) ∧
      ((if 0 < pp_calculate_distance (lmk 0.4 0.3 0 1).p3 (lmk 0.6 0.3 0 1).p3 then
          pp_calculate_distance (lmk 0.25 0.9 0 1).p3 (lmk 0.75 0.9 0 1).p3 /
            pp_calculate_distance (lmk 0.4 0.3 0 1).p3 (lmk 0.6 0.3 0 1).p3
        else 0) < (0.15 : ℝ) / 2)) = false := by
  apply decide_eq_false
  rintro ⟨h1, -, -⟩
  exact jjOpen_left_arm.2 (by linarith)

/-- Detector state after the first call of the worked test example
(history `[closed, closed, closed]`). -/
noncomputable def jjT0 : JJState := jjInit 0.6 30

/-- State after call 1 of `test_jumping_jack_full_cycle`. -/
noncomputable def jjT1 : JJState :=
  (jjDetect jjT0 [jjClosedFrame, jjClosedFrame, jjClosedFrame]).2

/-- State after call 2 (history `[closed, closed, open]`). -/
noncomputable def jjT2 : JJState :=
  (jjDetect jjT1 [jjClosedFrame, jjClosedFrame, jjOpenFrame]).2

/-- State after call 3 (history `[closed, open, open]`). -/
noncomputable def jjT3 : JJState :=
  (jjDetect jjT2 [jjClosedFrame, jjOpenFrame, jjOpenFrame]).2

/-- State after call 4 (history `[open, open, closed]`). -/
noncomputable def jjT4 : JJState :=
  (jjDetect jjT3 [jjOpenFrame, jjOpenFrame, jjClosedFrame]).2

/-- State after call 5 (history `[open, closed, closed]`). -/
noncomputable def jjT5 : JJState :=
  (jjDetect jjT4 [jjOpenFrame, jjClosedFrame, jjClosedFrame]).2

/-- Evaluation of `jjDetect` when the visibility gate raises. -/
theorem jjDetect_eval_error (s : JJState) (h : List Frame) (current : Frame) (e : PyErr)
    (hcd : s.cooldownCounter = 0) (hlen : 2 ≤ h.length)
    (hlast : negGet h 1 = some current)
    (hvis : are_landmarks_visible s.confidenceThreshold current jjRequired = .error e) :
    jjDetect s h = (.error e, s) := by
  unfold jjDetect
  rw [if_neg (Nat.not_lt.mpr hlen), hcd]
  rw [if_neg (lt_irrefl 0)]
  rw [hlast]
  simp only [hvis]

/-- Explicit form of `jjT1`. -/
noncomputable def jjE1 : JJState :=
  { jjT0 with positionHistory := [(true, false)], lastDetectionState := false }

/-- Explicit form of `jjT2`. -/
noncomputable def jjE2 : JJState :=
  { jjT0 with positionHistory := [(true, false), (true, false)], lastDetectionState := false }

/-- Explicit form of `jjT3`. -/
noncomputable def jjE3 : JJState :=
  { jjT0 with
    positionHistory := [(true, false), (true, false), (true, false)],
    currentPhase := "open", lastDetectionState := false }

/-- Explicit form of `jjT4`. -/
noncomputable def jjE4 : JJState :=
  { jjT0 with
    positionHistory := [(true, false), (true, false), (true, false), (true, false)],
    currentPhase := "open", lastDetectionState := false }

/-- Explicit form of `jjT5`. -/
noncomputable def jjE5 : JJState :=
  { jjT0 with
    positionHistory :=
      [(true, false), (true, false), (true, false), (true, false), (true, false)],
    currentPhase := "open", lastDetectionState := false }

/-- Claim C5 (code bug): evaluating `JumpingJackDetector.detect` on the
exact five histories of `test_jumping_jack_full_cycle`.  Both fixture
frames classify as `(is_open, is_closed) = (True, False)` — the "closed"
fixture's normalized ankle separation is `0.5 > 0.15` and its arm
angles are above 90° — so the detector's phase is `"unknown"` after the
first call (the test asserts `"closed"`), the phase ends at `"open"`
(the test asserts `"closed"`), the fourth call returns `False` (the
test asserts `True`), and the final rep count is `0` (the test and the
claim require `1`). -/
theorem C5_jumping_jack_test_trace :
    jjT1.currentPhase = "unknown" ∧
    (jjDetect jjT3 [jjOpenFrame, jjOpenFrame, jjClosedFrame]).1 = .ok false ∧
    jjT5.currentPhase = "open" ∧
    jjT5.repCount = 0 := by
  have e1 : jjT1 = jjE1 := by
    unfold jjT1
    rw [jjDetect_eval jjT0 [jjClosedFrame, jjClosedFrame, jjClosedFrame] jjClosedFrame
      rfl (by norm_num) rfl jjClosedFrame_visible _ _ _ _ _ _ rfl rfl rfl rfl rfl rfl
      true false jjClosedFrame_is_open jjClosedFrame_not_closed]
    rfl
  have e2 : jjT2 = jjE2 := by
    unfold jjT2
    rw [e1]
    rw [jjDetect_eval jjE1 [jjClosedFrame, jjClosedFrame, jjOpenFrame] jjOpenFrame
      rfl (by norm_num) rfl jjOpenFrame_visible _ _ _ _ _ _ rfl rfl rfl rfl rfl rfl
      true false jjOpenFrame_is_open jjOpenFrame_not_closed]
    rfl
  have e3 : jjT3 = jjE3 := by
    unfold jjT3
    rw [e2]
    rw [jjDetect_eval jjE2 [jjClosedFrame, jjOpenFrame, jjOpenFrame] jjOpenFrame
      rfl (by norm_num) rfl jjOpenFrame_visible _ _ _ _ _ _ rfl rfl rfl rfl rfl rfl
      true false jjOpenFrame_is_open jjOpenFrame_not_closed]
    rfl
  have e4 : jjT4 = jjE4 := by
    unfold jjT4
    rw [e3]
    rw [jjDetect_eval jjE3 [jjOpenFrame, jjOpenFrame, jjClosedFrame] jjClosedFrame
      rfl (by norm_num) rfl jjClosedFrame_visible _ _ _ _ _ _ rfl rfl rfl rfl rfl rfl
      true false jjClosedFrame_is_open jjClosedFrame_not_closed]
    rfl
  have e5 : jjT5 = jjE5 := by
    unfold jjT5
    rw [e4]
    rw [jjDetect_eval jjE4 [jjOpenFrame, jjClosedFrame, jjClosedFrame] jjClosedFrame
      rfl (by norm_num) rfl jjClosedFrame_visible _ _ _ _ _ _ rfl rfl rfl rfl rfl rfl
      true false jjClosedFrame_is_open jjClosedFrame_not_closed]
    rfl
  refine ⟨?_, ?_, ?_, ?_⟩
  · rw [e1]; rfl
  · rw [e3]
    rw [jjDetect_eval jjE3 [jjOpenFrame, jjOpenFrame, jjClosedFrame] jjClosedFrame
      rfl (by norm_num) rfl jjClosedFrame_visible _ _ _ _ _ _ rfl rfl rfl rfl rfl rfl
      true false jjClosedFrame_is_open jjClosedFrame_not_closed]
    rfl
  · rw [e5]; rfl
  · rw [e5]; rfl

/-- Claim C2 (code bug): `JumpingJackDetector.detect`, fed the exact
two-frame history of the repository's own
`test_detect_with_missing_landmarks` (a frame containing only the two
shoulder landmarks), raises `KeyError` from
`are_landmarks_visible` (`landmarks[idx]` on the absent elbow id 13)
instead of returning `False`; the state is unchanged at the moment the
exception propagates. -/
theorem C2_jj_detect_raises_keyerror :
    jjDetect (jjInit 0.6 30) [jjShouldersOnlyFrame, jjShouldersOnlyFrame] =
      (.error .keyError, jjInit 0.6 30) := by
  have hvis : are_landmarks_visible 0.6 jjShouldersOnlyFrame jjRequired = .error .keyError := by
    unfold jjRequired
    rw [are_landmarks_visible_cons 0.6 jjShouldersOnlyFrame 11 _ _ rfl (by norm_num [lmk]),
      are_landmarks_visible_cons 0.6 jjShouldersOnlyFrame 12 _ _ rfl (by norm_num [lmk]),
      are_landmarks_visible_missing 0.6 jjShouldersOnlyFrame 13 _ rfl]
  exact jjDetect_eval_error (jjInit 0.6 30) _ jjShouldersOnlyFrame .keyError
    rfl (by norm_num) rfl hvis

/-! ### Detector loading (`ExerciseDetectorManager._load_detectors`)

The manager derives a module name from each detector class name by
string manipulation, imports the module, and fetches the class by name;
`ImportError` / `AttributeError` are caught and the loop continues.
Strings are modelled as `List Char` so the transformations compute. -/

/-- Python `str.lower` on an ASCII character. -/
def asciiLower (c : Char) : Char :=
  if 65 ≤ c.toNat ∧ c.toNat ≤ 90 then Char.ofNat (c.toNat + 32) else c

/-- Python `str.lower` (class names are ASCII). -/
def pyLower (s : List Char) : List Char := s.map asciiLower

/-- Fuelled worker for `pyReplace`; the fuel (the string length) always
suffices since each step consumes at least one character. -/
def pyReplaceFuel (pat repl : List Char) : ℕ → List Char → List Char
  | 0, s => s
  | _ + 1, [] => []
  | n + 1, c :: rest =>
    if pat.isPrefixOf (c :: rest) then
      repl ++ pyReplaceFuel pat repl n (rest.drop (pat.length - 1))
    else c :: pyReplaceFuel pat repl n rest

/-- Python `str.replace`: replace all non-overlapping occurrences, left
to right. -/
def pyReplace (pat repl s : List Char) : List Char := pyReplaceFuel pat repl s.length s

/-- The modules in `fitfighter/detectors/` and the detector class each
defines.  Note `pushup_detector.py` defines `PushUpDetector` (capital
U). -/
def detectorModules : List (List Char × List Char) :=
  [("arm_circles_detector".data, "ArmCirclesDetector".data),
   ("burpee_detector".data, "BurpeeDetector".data),
   ("jumping_jack_detector".data, "JumpingJackDetector".data),
   ("kick_detector".data, "KickDetector".data),
   ("lunge_detector".data, "LungeDetector".data),
   ("plank_detector".data, "PlankDetector".data),
   ("pushup_detector".data, "PushUpDetector".data),
   ("situp_detector".data, "SitupDetector".data),
   ("squat_detector".data, "SquatDetector".data)]

/-- The names each detector module imports from
`fitfighter.utils.angle_calculator` (empty for modules that do
not use it). -/
def moduleAngleImports : List (List Char × List (List Char)) :=
  [("jumping_jack_detector".data, ["calculate_2d_angle".data]),
   ("pushup_detector".data, ["calculate_angle".data]),
   ("squat_detector".data, ["calculate_angle".data])]

/-- The functions actually defined in
`fitfighter/utils/angle_calculator.py`.  There is no `calculate_angle`,
so the `from ... import calculate_angle` lines in `squat_detector.py`
and `pushup_detector.py` raise `ImportError` at module load. -/
def angleCalculatorDefs : List (List Char) :=
  ["calculate_2d_angle".data, "calculate_3d_angle".data, "calculate_body_alignment".data]

/-- Whether importing a detector module succeeds: every name it imports
from `angle_calculator` must exist there. -/
def moduleImportOk (m : List Char) : Bool :=
  match moduleAngleImports.lookup m with
  | none => true
  | some imports => imports.all (fun n => angleCalculatorDefs.contains n)

/-- The module-name derivation of `_load_detectors`:
`detector_class_name.replace("Detector", "").lower()`, then append
`"_detector"`, replacing a trailing `"s"` first. -/
def deriveModuleName (className : List Char) : List Char :=
  let m := pyLower (pyReplace "Detector".data [] className)
  if "s".data.isSuffixOf m then m.dropLast ++ "_detector".data
  else m ++ "_detector".data

/-- One iteration of the `_load_detectors` loop: `none` models a caught
`ImportError` (module absent or failing to import) or `AttributeError`
(class name not defined by the module); on success the detector is
registered under `module_name.replace("_detector", "")`. -/
def resolveDetector (className : List Char) : Option (List Char) :=
  let m := deriveModuleName className
  match detectorModules.lookup m with
  | none => none
  | some cls =>
    if moduleImportOk m then
      if cls == className then some (pyReplace "_detector".data [] m) else none
    else none

/-- `_load_detectors`: each requested class name is resolved; failures
are logged and skipped (the `except (ImportError, AttributeError)`
around the loop body), so loading continues with the remaining names. -/
def load_detectors (names : List (List Char)) : List (List Char) :=
  names.filterMap resolveDetector

/-- The default `detectors_to_load` list of `_load_detectors`. -/
def default_detectors_to_load : List (List Char) :=
  ["JumpingJackDetector".data, "PushupDetector".data, "LungeDetector".data,
   "ArmCirclesDetector".data, "PlankDetector".data, "SitupDetector".data,
   "SquatDetector".data, "BurpeeDetector".data]

/-- Claim C1 (counterexample): the default construction does not load
nine detectors: the default list itself has eight entries (kick is
absent), and only four of them load. -/
theorem C1_default_load_not_nine :
    (load_detectors default_detectors_to_load).length = 4 ∧
    "KickDetector".data ∉ default_detectors_to_load := by
  decide

/-- Claim C1 (amended): constructing the manager with
`detectors_to_load=None` attempts the eight default class names and
loads exactly four detectors — lunge, plank, situp and burpee.
`JumpingJackDetector` and `ArmCirclesDetector` fail because the derived
module names (`jumpingjack_detector`, `armcircle_detector`) do not
exist; `SquatDetector` and `PushupDetector` fail because their
modules pull the nonexistent `calculate_angle` from `angle_calculator`
(and `pushup_detector` defines `PushUpDetector`, not `PushupDetector`).
Each failure is non-fatal: a name that fails to resolve is skipped and
the remaining names still load. -/
theorem C1_default_load_amended :
    load_detectors default_detectors_to_load =
      ["lunge".data, "plank".data, "situp".data, "burpee".data] ∧
    (∀ pre post x, resolveDetector x = none →
      load_detectors (pre ++ x :: post) = load_detectors (pre ++ post)) := by
  constructor
  · decide
  · intro pre post x hx
    unfold load_detectors
    simp [List.filterMap_append, List.filterMap_cons, hx]

/-- Witness for C1: skipping the failing `SquatDetector` entry is
non-fatal — `BurpeeDetector` after it still loads. -/
theorem C1_default_load_amended_witness :
    load_detectors ["SquatDetector".data, "BurpeeDetector".data] =
      load_detectors ["BurpeeDetector".data] := by
  exact C1_default_load_amended.2 [] ["BurpeeDetector".data] "SquatDetector".data (by decide)

/-! ### Kick detector (`fitfighter/detectors/kick_detector.py`) -/

/-- Python `>` against a possibly-NaN float: any comparison with NaN is
false. -/
noncomputable def pyGT (x : Option ℝ) (y : ℝ) : Bool :=
  match x with
  | none => false
  | some v => decide (y < v)

/-- State of `KickDetector`.  `ankle_position_history` is declared in
`__init__` but never touched by `detect`; it is carried for
completeness. -/
structure KickState where
  confidenceThreshold : ℝ
  historySize : ℕ
  velocityThreshold : ℝ
  extensionThreshold : ℝ
  cooldownFrames : ℕ
  consecutiveFramesRequired : ℕ
  repCount : ℕ
  isActive : Bool
  lastDetectionState : Bool
  cooldownCounter : ℕ
  consecutiveDetectionCounter : ℕ
  anklePositionHistory : List P3
  state : String

/-- `KickDetector.__init__`. -/
def kickInit (ct : ℝ) (hs : ℕ) : KickState :=
  { confidenceThreshold := ct
    historySize := hs
    velocityThreshold := 0.05
    extensionThreshold := 140
    cooldownFrames := 15
    consecutiveFramesRequired := 2
    repCount := 0
    isActive := false
    lastDetectionState := false
    cooldownCounter := 0
    consecutiveDetectionCounter := 0
    anklePositionHistory := []
    state := "neutral" }

/-- `KickDetector` defines no `reset` override, so `reset()` is the
base-class reset: it clears only the rep count, active flag, last
detection state and debug info — the cooldown counter, the
consecutive-detection counter and the `state` string survive. -/
def kickReset (s : KickState) : KickState :=
  { s with repCount := 0, isActive := false, lastDetectionState := false }

/-- The `required_landmarks` of `KickDetector`. -/
def kickRequired : List ℕ := [23, 24, 25, 26, 27, 28]

/-- `KickDetector._calculate_leg_extension` (lines 159-179): three
`get_landmark_position` calls in order (hip, knee, ankle).  On this
repository's tuple frames the first *present* id raises
`AttributeError`; with all three ids absent the result is `0`; the
base-class 3-d hip-knee-ankle angle in the tail (possibly NaN,
modelled `none`) is unreachable here but translated for totality. -/
noncomputable def kick_leg_extension (t : ℝ) (f : Frame)
    (hipIdx kneeIdx ankleIdx : ℕ) : Except PyErr (Option ℝ) :=
  match get_landmark_position t f hipIdx with
  | .error e => .error e
  | .ok hip =>
    match get_landmark_position t f kneeIdx with
    | .error e => .error e
    | .ok knee =>
      match get_landmark_position t f ankleIdx with
      | .error e => .error e
      | .ok ankle =>
        match hip, knee, ankle with
        | some hp, some kp, some ap => .ok (base_calculate_3d_angle hp kp ap)
        | _, _, _ => .ok (some 0)

/-- `KickDetector._calculate_leg_velocity` (lines 181-231): four
`get_landmark_position` calls in order (current ankle, previous ankle,
current knee, previous knee); a present id raises `AttributeError`,
all four absent gives `0`, and the depth-weighted ankle displacement
in the tail is unreachable here but translated for totality. -/
noncomputable def kick_leg_velocity (t : ℝ) (current previous : Frame)
    (ankleIdx kneeIdx : ℕ) : Except PyErr ℝ :=
  match get_landmark_position t current ankleIdx with
  | .error e => .error e
  | .ok ca =>
    match get_landmark_position t previous ankleIdx with
    | .error e => .error e
    | .ok pa =>
      match get_landmark_position t current kneeIdx with
      | .error e => .error e
      | .ok ck =>
        match get_landmark_position t previous kneeIdx with
        | .error e => .error e
        | .ok pk =>
          match ca, pa, ck, pk with
          | some cav, some pav, some ckv, some pkv =>
            let dx := (cav.1 - ckv.1) - (pav.1 - pkv.1)
            let dy := (cav.2.1 - ckv.2.1) - (pav.2.1 - pkv.2.1)
            let dz := (cav.2.2 - ckv.2.2) - (pav.2.2 - pkv.2.2)
            .ok (Real.sqrt (dx ^ 2 + dy ^ 2 + 1.5 * dz ^ 2))
          | _, _, _, _ => .ok 0

/-- Lines 138-157 of `kick_detector.py`: the debounce and rep logic
applied once both legs have been classified. -/
def kickCore (s : KickState) (currentDetection : Bool) : Bool × KickState :=
  let consec := if currentDetection then s.consecutiveDetectionCounter + 1 else 0
  let isKick := decide (s.consecutiveFramesRequired ≤ consec)
  let cdRep :=
    if isKick && !s.lastDetectionState then (s.cooldownFrames, s.repCount + 1)
    else (s.cooldownCounter, s.repCount)
  (isKick,
    { s with
      consecutiveDetectionCounter := consec, cooldownCounter := cdRep.1,
      repCount := cdRep.2, lastDetectionState := isKick, isActive := isKick })

/-- `KickDetector.detect`.  The cooldown check precedes the
history-length check; `landmark_history[-3]` is bound in the source but
never used.  On this repository's tuple frames the visibility gate
either returns `False` (hip id 23 absent: state unchanged) or raises
`AttributeError` (id 23 present: state unchanged), so the
classification tail — translated for totality — is unreachable and no
`detect` call can ever move the detector out of its initial state. -/
noncomputable def kickDetect (s : KickState) (h : List Frame) : Except PyErr Bool × KickState :=
  if 0 < s.cooldownCounter then
    (.ok false, { s with cooldownCounter := s.cooldownCounter - 1 })
  else if h.length < 3 then (.ok false, s)
  else
    match negGet h 1, negGet h 2 with
    | some current, some previous =>
      match check_landmarks_visibility s.confidenceThreshold current kickRequired with
      | .error e => (.error e, s)
      | .ok false => (.ok false, s)
      | .ok true =>
        match kick_leg_extension s.confidenceThreshold current 23 25 27 with
        | .error e => (.error e, s)
        | .ok leftExtension =>
          match kick_leg_velocity s.confidenceThreshold current previous 27 25 with
          | .error e => (.error e, s)
          | .ok leftVelocity =>
            match kick_leg_extension s.confidenceThreshold current 24 26 28 with
            | .error e => (.error e, s)
            | .ok rightExtension =>
              match kick_leg_velocity s.confidenceThreshold current previous 28 26 with
              | .error e => (.error e, s)
              | .ok rightVelocity =>
                let leftKick := decide (s.velocityThreshold < leftVelocity) &&
                  pyGT leftExtension s.extensionThreshold
                let rightKick := decide (s.velocityThreshold < rightVelocity) &&
                  pyGT rightExtension s.extensionThreshold
                let r := kickCore s (leftKick || rightKick)
                (.ok r.1, r.2)
    | _, _ => (.error .keyError, s)

/-- `check_landmarks_visibility` on a non-empty requirement list can
never be `ok True`, as a rewrite rule. -/
theorem check_landmarks_visibility_cons_ne_true (t : ℝ) (f : Frame) (i : ℕ)
    (rest : List ℕ) :
    (check_landmarks_visibility t f (i :: rest) = .ok true) ↔ False := by
  simp only [iff_false]
  exact check_landmarks_visibility_ne_ok_true t f i rest

/-- Exact value of a 3-d norm when the squared norm is a perfect
square. -/
theorem norm3_eq (v : P3) (d : ℝ) (hd : 0 ≤ d)
    (h : v.1 ^ 2 + v.2.1 ^ 2 + v.2.2 ^ 2 = d ^ 2) : norm3 v = d := by
  unfold norm3
  rw [h]
  exact Real.sqrt_sq hd

/-- `np.degrees(np.pi) = 180`. -/
theorem degrees_pi : degrees π = 180 := by
  unfold degrees
  field_simp

/-- The base-class 3-d angle of two exactly opposite rays is 180°. -/
theorem base3d_angle_collinear_opp (a b c : P3) (na nc : ℝ) (hna : 0 < na) (hnc : 0 < nc)
    (h1 : norm3 (sub3 a b) = na) (h2 : norm3 (sub3 c b) = nc)
    (hdot : dot3 (sub3 a b) (sub3 c b) = -(na * nc)) :
    base_calculate_3d_angle a b c = some 180 := by
  unfold base_calculate_3d_angle
  dsimp only
  rw [h1, h2, hdot]
  have hm : 0 < na * nc := mul_pos hna hnc
  rw [if_neg (ne_of_gt hm)]
  have hq : -(na * nc) / (na * nc) = -1 := by field_simp
  rw [hq]
  have hclip : clip (-1) (-1) 1 = -1 := by unfold clip; norm_num
  rw [hclip, Real.arccos_neg_one, degrees_pi]

/-- From its initial state the kick detector is frozen: the cooldown
counter starts at 0, the visibility gate can never pass (`ok True`
would need an empty requirement list) and every branch `detect` can
reach returns the state unchanged.  By induction, every state reachable
from `KickDetector()` through `detect` calls — including calls that
raise — is the initial state itself. -/
theorem kickDetect_init_frozen (ct : ℝ) (hs : ℕ) (h : List Frame) :
    (kickDetect (kickInit ct hs) h).2 = kickInit ct hs := by
  unfold kickDetect
  have hcd : ¬ 0 < (kickInit ct hs).cooldownCounter := by simp [kickInit]
  rw [if_neg hcd]
  repeat' split
  all_goals first
    | rfl
    | simp_all [kickRequired, check_landmarks_visibility_cons_ne_true]

/-! ### Squat detector (`fitfighter/detectors/squat_detector.py`)

`squat_detector.py` opens with
`from fitfighter.utils.angle_calculator import calculate_angle`, but
`angle_calculator.py` defines no `calculate_angle`, so importing the
module raises `ImportError` and the class cannot be instantiated in the
repository as it stands (see `moduleAngleImports` above).  The detector
body is embedded with the angle helper left abstract (`angleFn`), which
suffices for the claims about its control flow: every claim proved
below holds for an arbitrary angle function. -/

/-- Midpoint of two 3-d points. -/
noncomputable def midpoint3 (p q : P3) : P3 :=
  ((p.1 + q.1) / 2, (p.2.1 + q.2.1) / 2, (p.2.2 + q.2.2) / 2)

/-- State of `SquatDetector`. -/
structure SquatState where
  confidenceThreshold : ℝ
  historySize : ℕ
  cooldownFrames : ℕ
  kneeAngleStandingThreshold : ℝ
  kneeAngleSquatThreshold : ℝ
  hipAngleStandingThreshold : ℝ
  hipAngleSquatThreshold : ℝ
  minVerticalMovement : ℝ
  repCount : ℕ
  isActive : Bool
  lastDetectionState : Bool
  cooldownCounter : ℕ
  positionState : String
  positionHistory : List String
  lowestHipPosition : Option ℝ
  highestHipPosition : Option ℝ

/-- `SquatDetector.__init__`. -/
noncomputable def squatInit (ct : ℝ) (hs : ℕ) : SquatState :=
  { confidenceThreshold := ct
    historySize := hs
    cooldownFrames := 10
    kneeAngleStandingThreshold := 160
    kneeAngleSquatThreshold := 100
    hipAngleStandingThreshold := 170
    hipAngleSquatThreshold := 90
    minVerticalMovement := 0.15
    repCount := 0
    isActive := false
    lastDetectionState := false
    cooldownCounter := 0
    positionState := "up"
    positionHistory := []
    lowestHipPosition := none
    highestHipPosition := none }

/-- `SquatDetector._reset_detection_state`. -/
noncomputable def squat_reset_detection_state (s : SquatState) : SquatState :=
  { s with
    positionState := "up", positionHistory := [],
    lowestHipPosition := none, highestHipPosition := none, isActive := false }

/-- `SquatDetector.reset`. -/
noncomputable def squatReset (s : SquatState) : SquatState :=
  squat_reset_detection_state
    { s with
      repCount := 0, isActive := false, lastDetectionState := false,
      cooldownCounter := 0 }

/-- The `required_landmarks` of `SquatDetector`. -/
def squatRequired : List ℕ := [23, 24, 25, 26, 27, 28]

/-- The 3-to-5-frame majority vote shared by the squat and sit-up
detectors (lines 170-181 of `squat_detector.py`): ties resolve to
`"transitioning"`. -/
def majorityVote (ph : List String) (raw : String) : String :=
  if 3 ≤ ph.length then
    let dc := ph.count "down"
    let uc := ph.count "up"
    let tc := ph.count "transitioning"
    if max uc tc < dc then "down"
    else if max dc tc < uc then "up"
    else "transitioning"
  else raw

/-- `SquatDetector.detect`, with the (unimportable) angle helper
abstract.  The knee- and ankle-midpoints computed in the source are
never used and are not modelled. -/
noncomputable def squatDetect (angleFn : P3 → P3 → P3 → ℝ) (s : SquatState)
    (h : List Frame) : Except PyErr Bool × SquatState :=
  if h.length < 2 then (.ok false, s)
  else if 0 < s.cooldownCounter then
    (.ok false, { s with cooldownCounter := s.cooldownCounter - 1 })
  else
    match negGet h 1 with
    | none => (.error .keyError, s)
    | some landmarks =>
      match are_landmarks_visible s.confidenceThreshold landmarks squatRequired with
      | .error e => (.error e, s)
      | .ok false => (.ok false, squat_reset_detection_state s)
      | .ok true =>
        match landmarks.find? 23, landmarks.find? 24, landmarks.find? 25,
            landmarks.find? 26, landmarks.find? 27, landmarks.find? 28 with
        | some lh, some rh, some lk, some rk, some la, some ra =>
          let hipMid := midpoint3 lh.p3 rh.p3
          let avgKneeAngle := (angleFn lh.p3 lk.p3 la.p3 + angleFn rh.p3 rk.p3 ra.p3) / 2
          match are_landmarks_visible s.confidenceThreshold landmarks [11, 12] with
          | .error e => (.error e, s)
          | .ok shouldersVisible =>
            let avgHipAngle :=
              if shouldersVisible then
                match landmarks.find? 11, landmarks.find? 12 with
                | some ls, some rs =>
                  (angleFn ls.p3 lh.p3 lk.p3 + angleFn rs.p3 rh.p3 rk.p3) / 2
                | _, _ => 0
              else avgKneeAngle * 1.2
            let currentHipY := hipMid.2.1
            let ex :=
              match s.lowestHipPosition, s.highestHipPosition with
              | some l, some hi => (l, hi)
              | _, _ => (currentHipY, currentHipY)
            let low := if ex.1 < currentHipY then currentHipY else ex.1
            let high := if currentHipY < ex.2 then currentHipY else ex.2
            let verticalRange := max 0.001 (low - high)
            let hipPositionInRange := (currentHipY - high) / verticalRange
            let raw :=
              if s.kneeAngleStandingThreshold < avgKneeAngle ∧
                  s.hipAngleStandingThreshold < avgHipAngle ∧ hipPositionInRange < 0.3 then
                "up"
              else if avgKneeAngle < s.kneeAngleSquatThreshold ∧
                  avgHipAngle < s.hipAngleSquatThreshold ∧ 0.7 < hipPositionInRange then
                "down"
              else "transitioning"
            let ph := dequeAppend 5 s.positionHistory raw
            let newState := majorityVote ph raw
            let repCd :=
              if s.positionState = "down" ∧ newState = "up" then
                if s.minVerticalMovement < |low - high| then
                  (s.repCount + 1, s.cooldownFrames)
                else (s.repCount, s.cooldownCounter)
              else (s.repCount, s.cooldownCounter)
            let isActive := decide (newState = "down" ∨ newState = "transitioning")
            (.ok isActive,
              { s with
                positionState := newState, positionHistory := ph,
                lowestHipPosition := some low, highestHipPosition := some high,
                repCount := repCd.1, cooldownCounter := repCd.2,
                isActive := isActive, lastDetectionState := isActive })
        | _, _, _, _, _, _ => (.error .keyError, s)

/-! ### Sit-up detector (`fitfighter/detectors/situp_detector.py`)

`SitupDetector.__init__` never creates `self.debug_values`, yet both
exits of `detect` past the length/cooldown gates call
`self.debug_values.update(...)`: every such call raises
`AttributeError` after the state mutations made up to that point. -/

/-- State of `SitupDetector`. -/
structure SitupState where
  confidenceThreshold : ℝ
  historySize : ℕ
  cooldownFrames : ℕ
  hipAngleDownThreshold : ℝ
  hipAngleUpThreshold : ℝ
  minVerticalMovement : ℝ
  repCount : ℕ
  isActive : Bool
  lastDetectionState : Bool
  cooldownCounter : ℕ
  isInSitupPosition : Bool
  positionState : String
  positionHistory : List String
  lowestPosition : Option ℝ
  highestPosition : Option ℝ

/-- `SitupDetector.__init__`. -/
noncomputable def situpInit (ct : ℝ) (hs : ℕ) : SitupState :=
  { confidenceThreshold := ct
    historySize := hs
    cooldownFrames := 10
    hipAngleDownThreshold := 120
    hipAngleUpThreshold := 70
    minVerticalMovement := 0.15
    repCount := 0
    isActive := false
    lastDetectionState := false
    cooldownCounter := 0
    isInSitupPosition := false
    positionState := "down"
    positionHistory := []
    lowestPosition := none
    highestPosition := none }

/-- `SitupDetector._reset_detection_state`. -/
noncomputable def situp_reset_detection_state (s : SitupState) : SitupState :=
  { s with
    isInSitupPosition := false, positionState := "down", positionHistory := [],
    lowestPosition := none, highestPosition := none, isActive := false }

/-- `SitupDetector.reset`. -/
noncomputable def situpReset (s : SitupState) : SitupState :=
  situp_reset_detection_state
    { s with
      repCount := 0, isActive := false, lastDetectionState := false,
      cooldownCounter := 0 }

/-- The `required_landmarks` of `SitupDetector`. -/
def situpRequired : List ℕ := [11, 12, 23, 24, 25, 26]

/-- Python `<` against a possibly-NaN float. -/
noncomputable def pyLT (x : Option ℝ) (y : ℝ) : Bool :=
  match x with
  | none => false
  | some v => decide (v < y)

/-- `SitupDetector.detect`.  On the visibility-failure path the state
is reset and then `self.debug_values.update` raises `AttributeError`;
on the classification path all mutations (including a possible rep
increment) are applied and then the final `self.debug_values.update`
raises. -/
noncomputable def situpDetect (s : SitupState) (h : List Frame) :
    Except PyErr Bool × SitupState :=
  if h.length < 2 then (.ok false, s)
  else if 0 < s.cooldownCounter then
    (.ok false, { s with cooldownCounter := s.cooldownCounter - 1 })
  else
    match negGet h 1 with
    | none => (.error .keyError, s)
    | some landmarks =>
      match are_landmarks_visible s.confidenceThreshold landmarks situpRequired with
      | .error e => (.error e, s)
      | .ok false => (.error .attributeError, situp_reset_detection_state s)
      | .ok true =>
        match landmarks.find? 11, landmarks.find? 12, landmarks.find? 23,
            landmarks.find? 24, landmarks.find? 25, landmarks.find? 26 with
        | some ls, some rs, some lh, some rh, some lk, some rk =>
          let shoulderMid := midpoint3 ls.p3 rs.p3
          let hipMid := midpoint3 lh.p3 rh.p3
          let kneeMid := midpoint3 lk.p3 rk.p3
          let hipAngle := base_calculate_angle (shoulderMid.1, shoulderMid.2.1)
            (hipMid.1, hipMid.2.1) (kneeMid.1, kneeMid.2.1)
          let currentY := shoulderMid.2.1
          let ex :=
            match s.lowestPosition, s.highestPosition with
            | some l, some hi => (l, hi)
            | _, _ => (currentY, currentY)
          let low := if ex.1 < currentY then currentY else ex.1
          let high := if currentY < ex.2 then currentY else ex.2
          let verticalRange := max 0.001 (low - high)
          let positionInRange := (currentY - high) / verticalRange
          let raw :=
            if pyGT hipAngle s.hipAngleDownThreshold && decide (0.7 < positionInRange) then
              "down"
            else if pyLT hipAngle s.hipAngleUpThreshold && decide (positionInRange < 0.3) then
              "up"
            else "transitioning"
          let ph := dequeAppend 5 s.positionHistory raw
          let newState := majorityVote ph raw
          let repCd :=
            if s.positionState = "down" ∧ newState = "up" then
              if s.minVerticalMovement < |low - high| then
                (s.repCount + 1, s.cooldownFrames)
              else (s.repCount, s.cooldownCounter)
            else (s.repCount, s.cooldownCounter)
          let isIn := decide (newState = "down" ∨ newState = "transitioning" ∨ newState = "up")
          (.error .attributeError,
            { s with
              positionState := newState, positionHistory := ph,
              lowestPosition := some low, highestPosition := some high,
              repCount := repCd.1, cooldownCounter := repCd.2,
              isInSitupPosition := isIn, isActive := isIn, lastDetectionState := isIn })
        | _, _, _, _, _, _ => (.error .keyError, s)

/-! ### Lunge detector (`fitfighter/detectors/lunge_detector.py`) -/

/-- State of `LungeDetector`.  It sets no `cooldown_frames`; the
base-class default is `0` and the rep commit hard-codes `15`. -/
structure LungeState where
  confidenceThreshold : ℝ
  historySize : ℕ
  consecutiveFramesThreshold : ℕ
  repCount : ℕ
  isActive : Bool
  lastDetectionState : Bool
  cooldownCounter : ℕ
  state : String
  consecutiveMatchingFrames : ℕ

/-- `LungeDetector.__init__`. -/
def lungeInit (ct : ℝ) (hs : ℕ) : LungeState :=
  { confidenceThreshold := ct
    historySize := hs
    consecutiveFramesThreshold := 3
    repCount := 0
    isActive := false
    lastDetectionState := false
    cooldownCounter := 0
    state := "up"
    consecutiveMatchingFrames := 0 }

/-- `LungeDetector` defines no `reset` override: only the base-class
fields are cleared; `state`, `consecutive_matching_frames` and
`cooldown_counter` survive. -/
def lungeReset (s : LungeState) : LungeState :=
  { s with repCount := 0, isActive := false, lastDetectionState := false }

/-- The `required_landmarks` of `LungeDetector`. -/
def lungeRequired : List ℕ := [11, 12, 23, 24, 25, 26, 27, 28]

/-- `LungeDetector._calculate_angle`: the clamp `max(-1, min(1, ...))`
is applied after the division, and Python's `min`/`max` return their
first argument when compared with NaN, so a zero-length ray yields
`arccos(1) = 0` degrees; the `m = 0` branch encodes that quirk. -/
noncomputable def lunge_calculate_angle (a b c : P3) : ℝ :=
  let m := norm3 (sub3 a b) * norm3 (sub3 c b)
  if m = 0 then 0
  else degrees (Real.arccos (clip (dot3 (sub3 a b) (sub3 c b) / m) (-1) 1))

/-- `LungeDetector.detect`.  On this repository's tuple frames the
dict-style visibility gate either returns `False` (shoulder id 11
absent: state unchanged) or raises `AttributeError` (id 11 present:
state unchanged), so the position reads and the state machine below —
translated for totality (subscripting a `None` position raises
`TypeError`) — are unreachable: no `detect` call ever changes the lunge
state, no rep is ever committed, and the per-instance cooldown counter
never leaves its initial 0. -/
noncomputable def lungeDetect (s : LungeState) (h : List Frame) :
    Except PyErr Bool × LungeState :=
  if h.length < 2 then (.ok false, s)
  else
    match negGet h 1 with
    | none => (.error .keyError, s)
    | some landmarks =>
      match check_landmarks_visibility s.confidenceThreshold landmarks lungeRequired with
      | .error e => (.error e, s)
      | .ok false => (.ok false, s)
      | .ok true =>
        let body : Except PyErr (Bool × LungeState) := do
          let lsh ← get_landmark_position s.confidenceThreshold landmarks 11
          let _rsh ← get_landmark_position s.confidenceThreshold landmarks 12
          let lh ← get_landmark_position s.confidenceThreshold landmarks 23
          let rh ← get_landmark_position s.confidenceThreshold landmarks 24
          let lk ← get_landmark_position s.confidenceThreshold landmarks 25
          let rk ← get_landmark_position s.confidenceThreshold landmarks 26
          let la ← get_landmark_position s.confidenceThreshold landmarks 27
          let ra ← get_landmark_position s.confidenceThreshold landmarks 28
          match lsh, lh, rh, lk, rk, la, ra with
          | some _lshp, some lhp, some rhp, some lkp, some rkp, some lap, some rap =>
            let hipMid := midpoint3 lhp rhp
            let leftKneeAngle := lunge_calculate_angle lhp lkp lap
            let rightKneeAngle := lunge_calculate_angle rhp rkp rap
            let forwardKneeAngle := min leftKneeAngle rightKneeAngle
            let rearKneeAngle := max leftKneeAngle rightKneeAngle
            let hm ←
              if 5 < h.length then
                match negGet h 5 with
                | none => throw .keyError
                | some previous =>
                  match check_landmarks_visibility s.confidenceThreshold previous
                      [23, 24] with
                  | .error e => throw e
                  | .ok false => pure 0
                  | .ok true => do
                    let plh ← get_landmark_position s.confidenceThreshold previous 23
                    let prh ← get_landmark_position s.confidenceThreshold previous 24
                    match plh, prh with
                    | some plhp, some prhp =>
                      pure (hipMid.2.1 - (midpoint3 plhp prhp).2.1)
                    | _, _ => throw .typeError
              else pure 0
            let newState :=
              if forwardKneeAngle < 110 ∧ rearKneeAngle < 150 ∧ hm ≤ 0 then "down"
              else "up"
            let consec :=
              if newState = s.state then s.consecutiveMatchingFrames + 1 else 1
            let state' :=
              if s.consecutiveFramesThreshold ≤ consec then newState else s.state
            if s.cooldownCounter = 0 ∧ s.state = "down" ∧ state' = "up" then
              pure (true,
                { s with
                  repCount := s.repCount + 1, cooldownCounter := 15, isActive := true,
                  state := state', consecutiveMatchingFrames := consec })
            else
              let cd := if 0 < s.cooldownCounter then s.cooldownCounter - 1
                else s.cooldownCounter
              let isActive := decide (forwardKneeAngle < 130)
              pure (isActive,
                { s with
                  state := state', consecutiveMatchingFrames := consec,
                  cooldownCounter := cd, isActive := isActive })
          | _, _, _, _, _, _, _ => throw .typeError
        match body with
        | .error e => (.error e, s)
        | .ok r => (.ok r.1, r.2)

/-- The lunge detector never changes its own state: every `detect`
call either returns `False` with the state unchanged (short history,
or shoulder id 11 absent from the current frame) or raises with the
state unchanged (`KeyError` on an impossible negative index,
`AttributeError` from the visibility gate whenever id 11 is present).
In particular no rep is ever committed and no post-rep cooldown phase
ever starts. -/
theorem lungeDetect_frozen (s : LungeState) (h : List Frame) :
    (lungeDetect s h).2 = s := by
  unfold lungeDetect
  split
  · rfl
  split
  · rfl
  rename_i landmarks heq
  cases hc : check_landmarks_visibility s.confidenceThreshold landmarks lungeRequired with
  | error e => rfl
  | ok b =>
    cases b
    · rfl
    · exact absurd hc (check_landmarks_visibility_ne_ok_true _ _ _ _)

/-! ### Arm-circles detector (`fitfighter/detectors/arm_circles_detector.py`)

`ArmCirclesDetector.__init__` never creates `self.debug_values`, yet
`detect` calls `self.debug_values.update(...)` right after the
visibility gate (line 104), before any state mutation: every call that
passes the gate raises `AttributeError` with the state unchanged.  The
circle-tracking code below that line is unreachable. -/

/-- State of `ArmCirclesDetector`. -/
structure ArmCirclesState where
  confidenceThreshold : ℝ
  historySize : ℕ
  minWristMovement : ℝ
  circularityThreshold : ℝ
  cooldownFrames : ℕ
  repCount : ℕ
  isActive : Bool
  lastDetectionState : Bool
  cooldownCounter : ℕ
  leftWristPositions : List P3
  rightWristPositions : List P3
  activeArm : Option String
  circleCompletionLeft : ℝ
  circleCompletionRight : ℝ
  lastAngleLeft : Option ℝ
  lastAngleRight : Option ℝ
  angleHistoryLeft : List ℝ
  angleHistoryRight : List ℝ

/-- `ArmCirclesDetector.__init__`. -/
noncomputable def armCirclesInit (ct : ℝ) (hs : ℕ) : ArmCirclesState :=
  { confidenceThreshold := ct
    historySize := hs
    minWristMovement := 0.05
    circularityThreshold := 0.7
    cooldownFrames := 15
    repCount := 0
    isActive := false
    lastDetectionState := false
    cooldownCounter := 0
    leftWristPositions := []
    rightWristPositions := []
    activeArm := none
    circleCompletionLeft := 0
    circleCompletionRight := 0
    lastAngleLeft := none
    lastAngleRight := none
    angleHistoryLeft := []
    angleHistoryRight := [] }

/-- `ArmCirclesDetector.reset_circle_tracking`. -/
noncomputable def armCircles_reset_circle_tracking (s : ArmCirclesState) : ArmCirclesState :=
  { s with
    circleCompletionLeft := 0, circleCompletionRight := 0,
    lastAngleLeft := none, lastAngleRight := none,
    angleHistoryLeft := [], angleHistoryRight := [] }

/-- `ArmCirclesDetector.reset_tracking`. -/
noncomputable def armCircles_reset_tracking (s : ArmCirclesState) : ArmCirclesState :=
  armCircles_reset_circle_tracking
    { s with leftWristPositions := [], rightWristPositions := [], activeArm := none }

/-- `ArmCirclesDetector` defines no `reset` override: only the
base-class fields are cleared; the cooldown counter and the
circle-completion accumulators survive (they are, however, never
mutated by `detect`, which always raises before reaching them). -/
noncomputable def armCirclesReset (s : ArmCirclesState) : ArmCirclesState :=
  { s with repCount := 0, isActive := false, lastDetectionState := false }

/-- The `required_landmarks` of `ArmCirclesDetector`. -/
def armCirclesRequired : List ℕ := [11, 12, 13, 14, 15, 16]

/-- `ArmCirclesDetector.detect`: length gate, cooldown gate, visibility
gate (clearing the tracking state on failure), then the unconditional
`AttributeError` from the missing `debug_values` attribute. -/
noncomputable def armCirclesDetect (s : ArmCirclesState) (h : List Frame) :
    Except PyErr Bool × ArmCirclesState :=
  if h.length < 2 then (.ok false, s)
  else if 0 < s.cooldownCounter then
    (.ok false, { s with cooldownCounter := s.cooldownCounter - 1 })
  else
    match negGet h 1 with
    | none => (.error .keyError, s)
    | some current =>
      match are_landmarks_visible s.confidenceThreshold current armCirclesRequired with
      | .error e => (.error e, s)
      | .ok false => (.ok false, armCircles_reset_tracking s)
      | .ok true => (.error .attributeError, s)

/-! ### Burpee detector (`fitfighter/detectors/burpee_detector.py`) -/

/-- The five completion flags of
`BurpeeDetector._check_sequence_completion` (the sixth,
`found_standing_end`, is tracked but not required for completion). -/
structure BurpeeScan where
  standingStart : Bool
  squatDown : Bool
  plankFound : Bool
  squatUp : Bool
  jumpFound : Bool
  standingEnd : Bool

/-- One step of the single forward pass over the phase log: each phase
advances at most one "next expected phase" flag, and only on an exact
match; out-of-order or repeated phases fall through unchanged. -/
def burpeeScanStep (f : BurpeeScan) (phase : String) : BurpeeScan :=
  if !f.standingStart ∧ phase = "standing" then { f with standingStart := true }
  else if f.standingStart ∧ !f.squatDown ∧ phase = "squat" then { f with squatDown := true }
  else if f.squatDown ∧ !f.plankFound ∧ phase = "plank" then { f with plankFound := true }
  else if f.plankFound ∧ !f.squatUp ∧ phase = "squat" then { f with squatUp := true }
  else if f.squatUp ∧ !f.jumpFound ∧ phase = "jump" then { f with jumpFound := true }
  else if f.jumpFound ∧ !f.standingEnd ∧ phase = "standing" then { f with standingEnd := true }
  else f

/-- `BurpeeDetector._check_sequence_completion`: scan the phase log for
the ordered subsequence standing → squat → plank → squat → jump. -/
def check_sequence_completion (seq : List String) : Bool :=
  if seq.length < 4 then false
  else
    let f := seq.foldl burpeeScanStep
      ⟨false, false, false, false, false, false⟩
    f.standingStart && f.squatDown && f.plankFound && f.squatUp && f.jumpFound

/-- State of `BurpeeDetector`.  `phase_start_time`,
`current_phase_duration` and `max_frames_between_phases` are
initialized but never used by `detect` and are omitted. -/
structure BurpeeState where
  confidenceThreshold : ℝ
  historySize : ℕ
  cooldownFrames : ℕ
  maxSequenceLength : ℕ
  standingHipHeightThreshold : ℝ
  standingKneeAngleThreshold : ℝ
  squatKneeAngleThreshold : ℝ
  squatHipHeightThreshold : ℝ
  plankBodyAngleThreshold : ℝ
  plankHipHeightThreshold : ℝ
  jumpHeightThreshold : ℝ
  repCount : ℕ
  isActive : Bool
  lastDetectionState : Bool
  cooldownCounter : ℕ
  currentPhase : String
  phaseHistory : List String
  phaseSequence : List String
  lowestHipPosition : Option ℝ
  highestHipPosition : Option ℝ
  referenceHeight : Option ℝ

/-- `BurpeeDetector.__init__`. -/
noncomputable def burpeeInit (ct : ℝ) (hs : ℕ) : BurpeeState :=
  { confidenceThreshold := ct
    historySize := hs
    cooldownFrames := 15
    maxSequenceLength := 20
    standingHipHeightThreshold := 0.85
    standingKneeAngleThreshold := 160
    squatKneeAngleThreshold := 100
    squatHipHeightThreshold := 0.6
    plankBodyAngleThreshold := 30
    plankHipHeightThreshold := 0.4
    jumpHeightThreshold := 0.05
    repCount := 0
    isActive := false
    lastDetectionState := false
    cooldownCounter := 0
    currentPhase := "standing"
    phaseHistory := []
    phaseSequence := []
    lowestHipPosition := none
    highestHipPosition := none
    referenceHeight := none }

/-- `BurpeeDetector._reset_detection_state`. -/
noncomputable def burpee_reset_detection_state (s : BurpeeState) : BurpeeState :=
  { s with
    currentPhase := "standing", phaseHistory := [], phaseSequence := [],
    lowestHipPosition := none, highestHipPosition := none, isActive := false }

/-- `BurpeeDetector.reset`. -/
noncomputable def burpeeReset (s : BurpeeState) : BurpeeState :=
  { burpee_reset_detection_state
      { s with repCount := 0, isActive := false, lastDetectionState := false } with
    cooldownCounter := 0, referenceHeight := none }

/-- The `required_landmarks` of `BurpeeDetector`. -/
def burpeeRequired : List ℕ := [11, 12, 23, 24, 25, 26, 27, 28]

/-- Lines 142-148 of `burpee_detector.py`: the phase-transition log
after processing a frame whose determined phase is `newPhase` — only
phase *changes* are appended, dropping the oldest entry at the
20-entry cap. -/
def burpeeSeqAfter (s : BurpeeState) (newPhase : String) : List String :=
  if newPhase ≠ s.currentPhase then
    (if s.maxSequenceLength ≤ s.phaseSequence.length then s.phaseSequence.drop 1
      else s.phaseSequence) ++ [newPhase]
  else s.phaseSequence

/-- Lines 140-179 of `burpee_detector.py`: phase-transition logging,
sequence completion, rep commit, cooldown start and active-state
update, applied once `_determine_phase` has produced the new phase. -/
def burpeePhaseStep (s : BurpeeState) (newPhase : String) : Bool × BurpeeState :=
  let seq := burpeeSeqAfter s newPhase
  let ph := dequeAppend 10 s.phaseHistory newPhase
  let completed := check_sequence_completion seq
  let s1 := { s with currentPhase := newPhase, phaseSequence := seq, phaseHistory := ph }
  let s2 :=
    if completed then
      { s1 with
        repCount := s1.repCount + 1, cooldownCounter := s1.cooldownFrames,
        phaseSequence := [] }
    else s1
  let isActive := decide (newPhase ≠ "standing") || completed
  (isActive, { s2 with isActive := isActive, lastDetectionState := isActive })

/-- `BurpeeDetector._determine_phase`, taking the four metrics it
reads (knee and body angles may be NaN, modelled `Option`). -/
noncomputable def burpee_determine_phase (s : BurpeeState) (kneeAngle : Option ℝ)
    (bodyAngle : Option ℝ) (normHipHeight verticalVelocity : ℝ) : String :=
  if s.jumpHeightThreshold < verticalVelocity then "jump"
  else if decide (s.standingHipHeightThreshold < normHipHeight) &&
      pyGT kneeAngle s.standingKneeAngleThreshold then "standing"
  else if decide (s.squatHipHeightThreshold < normHipHeight) &&
      pyLT kneeAngle s.squatKneeAngleThreshold then "squat"
  else if decide (normHipHeight < s.plankHipHeightThreshold) &&
      (match bodyAngle with
        | none => false
        | some ba => decide (|ba - 180| < s.plankBodyAngleThreshold)) then "plank"
  else "transitioning"

/-- Average of two possibly-NaN floats (NaN propagates). -/
noncomputable def optAvg (x y : Option ℝ) : Option ℝ :=
  match x, y with
  | some a, some b => some ((a + b) / 2)
  | _, _ => none

/-- `BurpeeDetector.detect`.  `_calculate_metrics` additionally
computes `height_ratio` and `feet_distance`, which are only stored in
the debug map and are not modelled; the nose landmark (id 0) is
subscripted without being in `required_landmarks`, so its absence
raises `KeyError`. -/
noncomputable def burpeeDetect (s : BurpeeState) (h : List Frame) :
    Except PyErr Bool × BurpeeState :=
  if h.length < 2 then (.ok false, s)
  else if 0 < s.cooldownCounter then
    (.ok false, { s with cooldownCounter := s.cooldownCounter - 1 })
  else
    match negGet h 1, negGet h 2 with
    | some landmarks, some prevLandmarks =>
      match are_landmarks_visible s.confidenceThreshold landmarks burpeeRequired with
      | .error e => (.error e, s)
      | .ok false => (.ok false, burpee_reset_detection_state s)
      | .ok true =>
        match landmarks.find? 0 with
        | none => (.error .keyError, s)
        | some nose =>
          match landmarks.find? 11, landmarks.find? 12, landmarks.find? 23,
              landmarks.find? 24, landmarks.find? 25, landmarks.find? 26,
              landmarks.find? 27, landmarks.find? 28 with
          | some ls, some rs, some lh, some rh, some lk, some rk, some la, some ra =>
            let shoulderMid := midpoint3 ls.p3 rs.p3
            let hipMid := midpoint3 lh.p3 rh.p3
            let kneeMid := midpoint3 lk.p3 rk.p3
            let ankleMid := midpoint3 la.p3 ra.p3
            let avgKneeAngle := optAvg
              (base_calculate_angle (lh.x, lh.y) (lk.x, lk.y) (la.x, la.y))
              (base_calculate_angle (rh.x, rh.y) (rk.x, rk.y) (ra.x, ra.y))
            let bodyAngle := base_calculate_angle (shoulderMid.1, shoulderMid.2.1)
              (hipMid.1, hipMid.2.1) (kneeMid.1, kneeMid.2.1)
            let refHeight :=
              match s.referenceHeight with
              | none => |nose.y - ankleMid.2.1|
              | some r => r
            let hipHeight := hipMid.2.1
            let low :=
              match s.lowestHipPosition with
              | none => hipHeight
              | some l => if l < hipHeight then hipHeight else l
            let high :=
              match s.highestHipPosition with
              | none => hipHeight
              | some hi => if hipHeight < hi then hipHeight else hi
            let normHipHeight := 1 - (if refHeight ≠ 0 then hipHeight / refHeight else 1)
            match prevLandmarks.find? 23, prevLandmarks.find? 24 with
            | some plh, some prh =>
              let prevHipMid := midpoint3 plh.p3 prh.p3
              let verticalVelocity := prevHipMid.2.1 - hipMid.2.1
              let newPhase :=
                burpee_determine_phase s avgKneeAngle bodyAngle normHipHeight
                  verticalVelocity
              let s0 := { s with
                referenceHeight := some refHeight,
                lowestHipPosition := some low, highestHipPosition := some high }
              let r := burpeePhaseStep s0 newPhase
              (.ok r.1, r.2)
            | _, _ => (.error .keyError, s)
          | _, _, _, _, _, _, _, _ => (.error .keyError, s)
    | _, _ => (.error .keyError, s)

/-! ### Plank detector (`fitfighter/detectors/plank_detector.py`)

`detect` reads the wall clock (`time.time()`); the embedding threads
the current time in as an explicit argument. -/

/-- State of `PlankDetector`. -/
structure PlankState where
  confidenceThreshold : ℝ
  historySize : ℕ
  hipElevationThreshold : ℝ
  bodyAngleThreshold : ℝ
  stabilityThreshold : ℝ
  minPlankTime : ℝ
  repCount : ℕ
  isActive : Bool
  lastDetectionState : Bool
  isInPlankPosition : Bool
  plankStartTime : Option ℝ
  plankDuration : ℝ
  lastUpdateTime : Option ℝ
  previousPositions : Option (P3 × P3)

/-- `PlankDetector.__init__` (its default confidence threshold is
0.5). -/
noncomputable def plankInit (ct : ℝ) (hs : ℕ) : PlankState :=
  { confidenceThreshold := ct
    historySize := hs
    hipElevationThreshold := 0.15
    bodyAngleThreshold := 15.0
    stabilityThreshold := 0.03
    minPlankTime := 1.0
    repCount := 0
    isActive := false
    lastDetectionState := false
    isInPlankPosition := false
    plankStartTime := none
    plankDuration := 0
    lastUpdateTime := none
    previousPositions := none }

/-- `PlankDetector._reset_plank_state`. -/
noncomputable def plank_reset_plank_state (s : PlankState) : PlankState :=
  { s with isInPlankPosition := false, plankStartTime := none }

/-- `PlankDetector.reset`.  `last_update_time` is not restored. -/
noncomputable def plankReset (s : PlankState) : PlankState :=
  { plank_reset_plank_state
      { s with repCount := 0, isActive := false, lastDetectionState := false } with
    plankDuration := 0, previousPositions := none }

/-- The `required_landmarks` of `PlankDetector`. -/
def plankRequired : List ℕ := [11, 12, 13, 14, 23, 24, 27, 28]

/-- The body-line angle shared by the plank and push-up detectors:
angle of the shoulder-to-hip vector against the x axis, with the
Python `max(-1, min(1, ·))` NaN quirk giving 0° on a zero vector, then
flipped to `180 - angle` when the shoulders are lower on screen. -/
noncomputable def body_line_angle (shoulderMid hipMid : P3) : ℝ :=
  let v := sub3 hipMid shoulderMid
  let m := norm3 v
  let a0 := if m = 0 then 0 else degrees (Real.arccos (clip (v.1 / m) (-1) 1))
  if hipMid.2.1 < shoulderMid.2.1 then 180 - a0 else a0

/-- The common tail of every normal exit of `PlankDetector.detect`
(lines 208-215): record the update time, set the active flag from
`is_in_plank_position` and return it. -/
noncomputable def plankFinish (s' : PlankState) (t : ℝ) : Except PyErr Bool × PlankState :=
  let s'' := { s' with lastUpdateTime := some t, isActive := s'.isInPlankPosition }
  (.ok s''.isInPlankPosition, s'')

/-- `PlankDetector.detect`. -/
noncomputable def plankDetect (s : PlankState) (h : List Frame) (t : ℝ) :
    Except PyErr Bool × PlankState :=
  if h.length < 2 then (.ok false, s)
  else
    let s := { s with
      lastUpdateTime := some (match s.lastUpdateTime with | none => t | some u => u) }
    match negGet h 1 with
    | none => (.error .keyError, s)
    | some landmarks =>
      match are_landmarks_visible s.confidenceThreshold landmarks plankRequired with
      | .error e => (.error e, s)
      | .ok false => (.ok false, plank_reset_plank_state s)
      | .ok true =>
        match landmarks.find? 11, landmarks.find? 12, landmarks.find? 23,
            landmarks.find? 24, landmarks.find? 27, landmarks.find? 28 with
        | some ls, some rs, some lh, some rh, some la, some ra =>
          let shoulderMid := midpoint3 ls.p3 rs.p3
          let hipMid := midpoint3 lh.p3 rh.p3
          let ankleMid := midpoint3 la.p3 ra.p3
          let bodyLength := pp_calculate_distance shoulderMid ankleMid
          let bodyAngle := body_line_angle shoulderMid hipMid
          let hipElevation := |hipMid.2.1 - shoulderMid.2.1| / max 0.1 bodyLength
          let isStable :=
            match s.previousPositions with
            | none => true
            | some prev =>
              decide ((pp_calculate_distance shoulderMid prev.1 +
                pp_calculate_distance hipMid prev.2) / (2 * max 0.1 bodyLength) <
                s.stabilityThreshold)
          let s := { s with previousPositions := some (shoulderMid, hipMid) }
          let isPlank := decide (|bodyAngle| < s.bodyAngleThreshold) &&
            decide (hipElevation < s.hipElevationThreshold) && isStable
          if isPlank then
            if ¬ s.isInPlankPosition then
              plankFinish { s with isInPlankPosition := true, plankStartTime := some t } t
            else
              match s.plankStartTime with
              | none => (.error .typeError, s)
              | some st => plankFinish { s with plankDuration := t - st } t
          else
            if s.isInPlankPosition then
              match s.plankStartTime with
              | none => (.error .typeError, s)
              | some st =>
                let dur := t - st
                let rep :=
                  if s.minPlankTime ≤ dur then s.repCount + 1 else s.repCount
                plankFinish (plank_reset_plank_state
                  { s with plankDuration := dur, repCount := rep }) t
            else plankFinish (plank_reset_plank_state s) t
        | _, _, _, _, _, _ => (.error .keyError, s)

/-! ### Push-up detector (`fitfighter/detectors/pushup_detector.py`)

`pushup_detector.py` also opens with
`from fitfighter.utils.angle_calculator import calculate_angle`, which
does not exist, so the module fails to import (and its class is named
`PushUpDetector` while the manager's default list asks for
`PushupDetector`).  As for the squat detector the angle helper is left
abstract. -/

/-- State of `PushUpDetector`. -/
structure PushUpState where
  confidenceThreshold : ℝ
  historySize : ℕ
  elbowAngleDownThreshold : ℝ
  elbowAngleUpThreshold : ℝ
  bodyAngleThreshold : ℝ
  minVerticalMovement : ℝ
  transitioningThreshold : ℝ
  repCount : ℕ
  isActive : Bool
  lastDetectionState : Bool
  isInPushupPosition : Bool
  positionState : String
  lastUpdateTime : Option ℝ
  lowestPosition : Option ℝ
  highestPosition : Option ℝ

/-- `PushUpDetector.__init__` (default confidence threshold 0.5). -/
noncomputable def pushupInit (ct : ℝ) (hs : ℕ) : PushUpState :=
  { confidenceThreshold := ct
    historySize := hs
    elbowAngleDownThreshold := 90
    elbowAngleUpThreshold := 160
    bodyAngleThreshold := 30.0
    minVerticalMovement := 0.15
    transitioningThreshold := 0.05
    repCount := 0
    isActive := false
    lastDetectionState := false
    isInPushupPosition := false
    positionState := "up"
    lastUpdateTime := none
    lowestPosition := none
    highestPosition := none }

/-- `PushUpDetector._reset_detection_state`. -/
noncomputable def pushup_reset_detection_state (s : PushUpState) : PushUpState :=
  { s with
    isInPushupPosition := false, positionState := "up",
    lowestPosition := none, highestPosition := none, isActive := false }

/-- `PushUpDetector._partial_reset`. -/
noncomputable def pushup_partial_reset (s : PushUpState) : PushUpState :=
  { s with lowestPosition := none, highestPosition := none }

/-- `PushUpDetector.reset`. -/
noncomputable def pushupReset (s : PushUpState) : PushUpState :=
  pushup_reset_detection_state
    { s with repCount := 0, isActive := false, lastDetectionState := false }

/-- The `required_landmarks` of `PushUpDetector`. -/
def pushupRequired : List ℕ := [11, 12, 13, 14, 15, 16, 23, 24]

/-- `PushUpDetector.detect`, with the (unimportable) angle helper
abstract. -/
noncomputable def pushupDetect (angleFn : P3 → P3 → P3 → ℝ) (s : PushUpState)
    (h : List Frame) (t : ℝ) : Except PyErr Bool × PushUpState :=
  if h.length < 2 then (.ok false, s)
  else
    let s := { s with
      lastUpdateTime := some (match s.lastUpdateTime with | none => t | some u => u) }
    match negGet h 1 with
    | none => (.error .keyError, s)
    | some landmarks =>
      match are_landmarks_visible s.confidenceThreshold landmarks pushupRequired with
      | .error e => (.error e, s)
      | .ok false => (.ok false, pushup_reset_detection_state s)
      | .ok true =>
        match landmarks.find? 11, landmarks.find? 12, landmarks.find? 13,
            landmarks.find? 14, landmarks.find? 15, landmarks.find? 16,
            landmarks.find? 23, landmarks.find? 24 with
        | some ls, some rs, some le, some re, some lw, some rw, some lh, some rh =>
          let shoulderMid := midpoint3 ls.p3 rs.p3
          let hipMid := midpoint3 lh.p3 rh.p3
          let avgElbowAngle := (angleFn lw.p3 le.p3 ls.p3 + angleFn rw.p3 re.p3 rs.p3) / 2
          let bodyAngle := body_line_angle shoulderMid hipMid
          let isBodyHorizontal := decide (|bodyAngle| < s.bodyAngleThreshold)
          let currentY := shoulderMid.2.1
          let ex :=
            match s.lowestPosition, s.highestPosition with
            | some l, some hi => (l, hi)
            | _, _ => (currentY, currentY)
          let low := if ex.1 < currentY then currentY else ex.1
          let high := if currentY < ex.2 then currentY else ex.2
          let verticalRange := max 0.001 (low - high)
          let positionInRange := (currentY - high) / verticalRange
          let newState :=
            if avgElbowAngle < s.elbowAngleDownThreshold ∧ 0.7 < positionInRange then
              "down"
            else if s.elbowAngleUpThreshold < avgElbowAngle ∧ positionInRange < 0.3 then
              "up"
            else "transitioning"
          let rep :=
            if s.positionState = "down" ∧ newState = "up" then
              if s.minVerticalMovement < |low - high| ∧ isBodyHorizontal then
                s.repCount + 1
              else s.repCount
            else s.repCount
          let s1 := { s with
            positionState := newState, repCount := rep,
            lowestPosition := some low, highestPosition := some high,
            isInPushupPosition := isBodyHorizontal, isActive := isBodyHorizontal }
          let s2 := if !isBodyHorizontal then pushup_partial_reset s1 else s1
          (.ok s2.isActive, { s2 with lastUpdateTime := some t })
        | _, _, _, _, _, _, _, _ => (.error .keyError, s)

/-- Folding a list of determined phases through the burpee
phase/sequence logic from the initial state. -/
noncomputable def burpeeDrive (phases : List String) : BurpeeState :=
  phases.foldl (fun s p => (burpeePhaseStep s p).2) (burpeeInit 0.6 30)

/-- Claim C6: the burpee detector commits a rep exactly when the
updated phase-transition log contains the ordered subsequence
standing → squat → plank → squat → jump (single forward pass,
advancing only on exact matches); on a commit the log is cleared and
the cooldown counter is set to `cooldown_frames = 15`.  Driving the
log through the claimed sequence (a `transitioning` frame first, since
the detector starts in phase `standing` and only phase *changes* are
logged) commits exactly one rep; the same drive with `plank` omitted
commits zero. -/
theorem C6_burpee_sequence_detection :
    (∀ (s : BurpeeState) (p : String),
      (burpeePhaseStep s p).2.repCount =
        s.repCount +
          (if check_sequence_completion (burpeeSeqAfter s p) then 1 else 0) ∧
      (check_sequence_completion (burpeeSeqAfter s p) = true →
        (burpeePhaseStep s p).2.cooldownCounter = s.cooldownFrames ∧
        (burpeePhaseStep s p).2.phaseSequence = [])) ∧
    (∀ ct hs, (burpeeInit ct hs).cooldownFrames = 15) ∧
    check_sequence_completion
      ["standing", "squat", "plank", "squat", "jump", "standing"] = true ∧
    check_sequence_completion
      ["standing", "squat", "squat", "jump", "standing"] = false ∧
    (burpeeDrive
      ["transitioning", "standing", "squat", "plank", "squat", "jump",
        "standing"]).repCount = 1 ∧
    (burpeeDrive
      ["transitioning", "standing", "squat", "squat", "jump",
        "standing"]).repCount = 0 := by
  refine ⟨?_, ?_, by decide, by decide, rfl, rfl⟩
  · intro s p
    constructor
    · unfold burpeePhaseStep
      dsimp only
      split <;> simp
    · intro hc
      unfold burpeePhaseStep
      dsimp only
      rw [hc]
      exact ⟨rfl, rfl⟩
  · intro ct hs
    rfl

/-- Witness for C6: a concrete state whose log completes on the `jump`
transition — the rep commits, the log is cleared and the 15-frame
cooldown starts. -/
theorem C6_burpee_sequence_detection_witness :
    (burpeePhaseStep
      { burpeeInit 0.6 30 with
        currentPhase := "squat",
        phaseSequence := ["standing", "squat", "plank", "squat"] }
      "jump").2.repCount = 0 + 1 ∧
    (burpeePhaseStep
      { burpeeInit 0.6 30 with
        currentPhase := "squat",
        phaseSequence := ["standing", "squat", "plank", "squat"] }
      "jump").2.cooldownCounter = 15 ∧
    (burpeePhaseStep
      { burpeeInit 0.6 30 with
        currentPhase := "squat",
        phaseSequence := ["standing", "squat", "plank", "squat"] }
      "jump").2.phaseSequence = [] := by
  have h1 := (C6_burpee_sequence_detection.1
    { burpeeInit 0.6 30 with
      currentPhase := "squat",
      phaseSequence := ["standing", "squat", "plank", "squat"] } "jump").1
  have h2 := (C6_burpee_sequence_detection.1
    { burpeeInit 0.6 30 with
      currentPhase := "squat",
      phaseSequence := ["standing", "squat", "plank", "squat"] } "jump").2
    (by decide)
  refine ⟨?_, h2.1, h2.2⟩
  rw [h1]
  rfl

/-! ### Rep-count monotonicity (claim C9) -/

/-- The jumping-jack phase logic never decreases the rep count. -/
theorem jjPhaseLogic_rep_mono (s : JJState) (bO bC : Bool) :
    s.repCount ≤ (jjPhaseLogic s bO bC).2.repCount := by
  unfold jjPhaseLogic
  try dsimp only
  repeat' split
  all_goals simp 

/-- `jjDetect` never decreases the rep count. -/
theorem jjDetect_rep_mono (s : JJState) (h : List Frame) :
    s.repCount ≤ (jjDetect s h).2.repCount := by
  unfold jjDetect
  repeat' split
  all_goals try exact jjPhaseLogic_rep_mono _ _ _
  all_goals simp

/-- `squatDetect` never decreases the rep count, for any angle
helper. -/
theorem squatDetect_rep_mono (angleFn : P3 → P3 → P3 → ℝ) (s : SquatState)
    (h : List Frame) : s.repCount ≤ (squatDetect angleFn s h).2.repCount := by
  unfold squatDetect
  try dsimp only
  repeat' split
  all_goals simp [squat_reset_detection_state]

/-- `situpDetect` never decreases the rep count. -/
theorem situpDetect_rep_mono (s : SitupState) (h : List Frame) :
    s.repCount ≤ (situpDetect s h).2.repCount := by
  unfold situpDetect
  try dsimp only
  repeat' split
  all_goals simp [situp_reset_detection_state]

/-- `lungeDetect` never decreases the rep count. -/
theorem lungeDetect_rep_mono (s : LungeState) (h : List Frame) :
    s.repCount ≤ (lungeDetect s h).2.repCount := by
  rw [lungeDetect_frozen]

/-- `armCirclesDetect` never decreases the rep count. -/
theorem armCirclesDetect_rep_mono (s : ArmCirclesState) (h : List Frame) :
    s.repCount ≤ (armCirclesDetect s h).2.repCount := by
  unfold armCirclesDetect
  try dsimp only
  repeat' split
  all_goals simp [armCircles_reset_tracking, armCircles_reset_circle_tracking]

/-- `burpeePhaseStep` never decreases the rep count. -/
theorem burpeePhaseStep_rep_mono (s : BurpeeState) (p : String) :
    s.repCount ≤ (burpeePhaseStep s p).2.repCount := by
  unfold burpeePhaseStep
  try dsimp only
  repeat' split
  all_goals simp 

/-- Variant of `burpeePhaseStep_rep_mono` for a state whose rep count
matches a reference state. -/
theorem burpeePhaseStep_rep_mono' (s s' : BurpeeState) (p : String)
    (hrep : s'.repCount = s.repCount) :
    s.repCount ≤ (burpeePhaseStep s' p).2.repCount :=
  hrep ▸ burpeePhaseStep_rep_mono s' p

/-- `burpeeDetect` never decreases the rep count. -/
theorem burpeeDetect_rep_mono (s : BurpeeState) (h : List Frame) :
    s.repCount ≤ (burpeeDetect s h).2.repCount := by
  unfold burpeeDetect
  repeat' split
  all_goals try exact burpeePhaseStep_rep_mono _ _
  all_goals simp [burpee_reset_detection_state]
  all_goals exact burpeePhaseStep_rep_mono' _ _ _ rfl

/-- `kickCore` never decreases the rep count. -/
theorem kickCore_rep_mono (s : KickState) (b : Bool) :
    s.repCount ≤ (kickCore s b).2.repCount := by
  unfold kickCore
  try dsimp only
  repeat' split
  all_goals simp 

/-- Variant of `kickCore_rep_mono` for a state whose rep count matches
a reference state. -/
theorem kickCore_rep_mono' (s s' : KickState) (b : Bool)
    (hrep : s'.repCount = s.repCount) :
    s.repCount ≤ (kickCore s' b).2.repCount :=
  hrep ▸ kickCore_rep_mono s' b

/-- `kickDetect` never decreases the rep count. -/
theorem kickDetect_rep_mono (s : KickState) (h : List Frame) :
    s.repCount ≤ (kickDetect s h).2.repCount := by
  unfold kickDetect
  repeat' split
  all_goals try exact kickCore_rep_mono _ _
  all_goals simp
  all_goals exact kickCore_rep_mono' _ _ _ rfl

/-- `plankDetect` never decreases the rep count, for any clock
reading. -/
theorem plankDetect_rep_mono (s : PlankState) (h : List Frame) (t : ℝ) :
    s.repCount ≤ (plankDetect s h t).2.repCount := by
  unfold plankDetect
  try dsimp only
  repeat' split
  all_goals simp [plank_reset_plank_state, plankFinish]

/-- `pushupDetect` never decreases the rep count, for any angle helper
and clock reading. -/
theorem pushupDetect_rep_mono (angleFn : P3 → P3 → P3 → ℝ) (s : PushUpState)
    (h : List Frame) (t : ℝ) :
    s.repCount ≤ (pushupDetect angleFn s h t).2.repCount := by
  unfold pushupDetect
  try dsimp only
  repeat' split
  all_goals simp [pushup_reset_detection_state, pushup_partial_reset]

/-- Claim C9: for every one of the nine detectors and every single
`detect` call from an arbitrary state on an arbitrary landmark
history, the rep count after the call is at least the rep count before
it (exceptions leave the partially-updated state, whose rep count is
likewise never decreased); hence rep counts are monotone
non-decreasing along any sequence of calls between resets.  The squat
and push-up detectors are quantified over an arbitrary angle helper
since their modules' `calculate_angle` import does not resolve. -/
theorem C9_rep_counts_monotone :
    (∀ (s : JJState) (h : List Frame), s.repCount ≤ (jjDetect s h).2.repCount) ∧
    (∀ (angleFn : P3 → P3 → P3 → ℝ) (s : SquatState) (h : List Frame),
      s.repCount ≤ (squatDetect angleFn s h).2.repCount) ∧
    (∀ (s : SitupState) (h : List Frame), s.repCount ≤ (situpDetect s h).2.repCount) ∧
    (∀ (s : LungeState) (h : List Frame), s.repCount ≤ (lungeDetect s h).2.repCount) ∧
    (∀ (s : ArmCirclesState) (h : List Frame),
      s.repCount ≤ (armCirclesDetect s h).2.repCount) ∧
    (∀ (s : BurpeeState) (h : List Frame), s.repCount ≤ (burpeeDetect s h).2.repCount) ∧
    (∀ (s : KickState) (h : List Frame), s.repCount ≤ (kickDetect s h).2.repCount) ∧
    (∀ (s : PlankState) (h : List Frame) (t : ℝ),
      s.repCount ≤ (plankDetect s h t).2.repCount) ∧
    (∀ (angleFn : P3 → P3 → P3 → ℝ) (s : PushUpState) (h : List Frame) (t : ℝ),
      s.repCount ≤ (pushupDetect angleFn s h t).2.repCount) :=
  ⟨jjDetect_rep_mono, squatDetect_rep_mono, situpDetect_rep_mono, lungeDetect_rep_mono,
    armCirclesDetect_rep_mono, burpeeDetect_rep_mono, kickDetect_rep_mono,
    plankDetect_rep_mono, pushupDetect_rep_mono⟩

/-! ### The detector manager (`fitfighter/core/detector_manager.py`, claim C3) -/

/-- A detector instance owned by the manager: one constructor per
importable detector class (the squat and push-up modules fail
to load — their `calculate_angle` import does not exist — so no
instance of those two classes can be constructed). -/
inductive Det where
  | jj : JJState → Det
  | lunge : LungeState → Det
  | armCircles : ArmCirclesState → Det
  | plank : PlankState → Det
  | situp : SitupState → Det
  | burpee : BurpeeState → Det
  | kick : KickState → Det

/-- `detector.detect(list(self.landmark_history))`, dispatched on the
detector class; `t` is the wall-clock time the plank detector reads. -/
noncomputable def detStep (t : ℝ) (d : Det) (h : List Frame) : Except PyErr Bool × Det :=
  match d with
  | .jj s => ((jjDetect s h).1, .jj (jjDetect s h).2)
  | .lunge s => ((lungeDetect s h).1, .lunge (lungeDetect s h).2)
  | .armCircles s => ((armCirclesDetect s h).1, .armCircles (armCirclesDetect s h).2)
  | .plank s => ((plankDetect s h t).1, .plank (plankDetect s h t).2)
  | .situp s => ((situpDetect s h).1, .situp (situpDetect s h).2)
  | .burpee s => ((burpeeDetect s h).1, .burpee (burpeeDetect s h).2)
  | .kick s => ((kickDetect s h).1, .kick (kickDetect s h).2)

/-- `detector.rep_count`. -/
def detRep : Det → ℕ
  | .jj s => s.repCount
  | .lunge s => s.repCount
  | .armCircles s => s.repCount
  | .plank s => s.repCount
  | .situp s => s.repCount
  | .burpee s => s.repCount
  | .kick s => s.repCount

/-- Python dict assignment `d[k] = v` on an insertion-ordered
association list: overwrite in place, or append a fresh key. -/
def dset {α : Type} : List (String × α) → String → α → List (String × α)
  | [], k, v => [(k, v)]
  | (q, w) :: rest, k, v =>
    if q = k then (k, v) :: rest else (q, w) :: dset rest k v

/-- Python `d[k] += 1`: `KeyError` when `k` is missing. -/
def aincr : List (String × ℕ) → String → Except PyErr (List (String × ℕ))
  | [], _ => .error .keyError
  | (q, w) :: rest, k =>
    if q = k then .ok ((q, w + 1) :: rest)
    else
      match aincr rest k with
      | .error e => .error e
      | .ok rest' => .ok ((q, w) :: rest')

/-- Python `del d[k]` (under an `in` guard): drop the binding. -/
def adel {α : Type} (m : List (String × α)) (k : String) : List (String × α) :=
  m.eraseP (fun p => p.1 == k)

/-- `sum(self.exercise_counts.values())`. -/
def sumCounts (m : List (String × ℕ)) : ℕ := (m.map Prod.snd).sum

/-- The mutable state of `ExerciseDetectorManager`: the detector dict,
the active-exercise set, the per-exercise counts, and the
`session_stats` fields (`total_reps`, `exercise_durations`,
`last_active`). -/
structure Manager where
  historySize : ℕ
  confidenceThreshold : ℝ
  landmarkHistory : List Frame
  detectors : List (String × Det)
  activeExercises : Finset String
  exerciseCounts : List (String × ℕ)
  exerciseDurations : List (String × ℕ)
  totalReps : ℕ
  lastActive : Option String

/-- `ExerciseDetectorManager(history_size, confidence_threshold, [])`:
an explicit empty `detectors_to_load` list loads no detector at all. -/
noncomputable def managerEmpty (hs : ℕ) (ct : ℝ) : Manager :=
  { historySize := hs
    confidenceThreshold := ct
    landmarkHistory := []
    detectors := []
    activeExercises := ∅
    exerciseCounts := []
    exerciseDurations := []
    totalReps := 0
    lastActive := none }

/-- The per-detector body of the `process_landmarks` loop (lines
123-135): active-set update with `last_active`, rep-count copy, and
duration increment (`exercise_durations[name] += 1` raises `KeyError`
on a missing key). -/
noncomputable def managerStep (m : Manager) (name : String) (det : Bool) (rep : ℕ) :
    Except PyErr Manager :=
  let m1 :=
    if det = true ∧ name ∉ m.activeExercises then
      { m with
        activeExercises := insert name m.activeExercises, lastActive := some name }
    else if ¬ det = true ∧ name ∈ m.activeExercises then
      { m with activeExercises := m.activeExercises.erase name }
    else m
  let m2 := { m1 with exerciseCounts := dset m1.exerciseCounts name rep }
  match (if det then aincr m2.exerciseDurations name else .ok m2.exerciseDurations) with
  | .error e => .error e
  | .ok durs => .ok { m2 with exerciseDurations := durs }

/-- The detector loop of `process_landmarks`, returning the updated
detector instances and the updated manager fields; detector exceptions
and the duration `KeyError` propagate. -/
noncomputable def processDetectors (t : ℝ) (h : List Frame) :
    List (String × Det) → Manager → Except PyErr (List (String × Det) × Manager)
  | [], m => .ok ([], m)
  | (name, d) :: rest, m =>
    match detStep t d h with
    | (.error e, _) => .error e
    | (.ok det, d') =>
      match managerStep m name det (detRep d') with
      | .error e => .error e
      | .ok mstep =>
        match processDetectors t h rest mstep with
        | .error e => .error e
        | .ok (rest', m') => .ok ((name, d') :: rest', m')

/-- `ExerciseDetectorManager.process_landmarks`: append to the bounded
history, return early while warming up (fewer than two frames), run
every detector, then recompute `total_reps` as the sum of the counts. -/
noncomputable def processLandmarks (t : ℝ) (m : Manager) (landmarks : Frame) :
    Except PyErr Manager :=
  let hist := dequeAppend m.historySize m.landmarkHistory landmarks
  let m0 := { m with landmarkHistory := hist }
  if hist.length < 2 then .ok m0
  else
    match processDetectors t hist m0.detectors m0 with
    | .error e => .error e
    | .ok (ds, m') =>
      .ok { m' with detectors := ds, totalReps := sumCounts m'.exerciseCounts }

/-- `ExerciseDetectorManager.add_detector`: upsert the detector and
zero its count and duration entries — without recomputing
`total_reps` and without touching `active_exercises`. -/
noncomputable def addDetector (m : Manager) (name : String) (d : Det) : Manager :=
  { m with
    detectors := dset m.detectors name d,
    exerciseCounts := dset m.exerciseCounts name 0,
    exerciseDurations := dset m.exerciseDurations name 0 }

/-- `ExerciseDetectorManager.remove_detector`: delete the detector and
its count, duration and active entries — without recomputing
`total_reps`. -/
noncomputable def removeDetector (m : Manager) (name : String) : Bool × Manager :=
  if (m.detectors.map Prod.fst).contains name then
    (true,
      { m with
        detectors := adel m.detectors name,
        exerciseCounts := adel m.exerciseCounts name,
        exerciseDurations := adel m.exerciseDurations name,
        activeExercises := m.activeExercises.erase name })
  else (false, m)

/-- After one loop body, a name is active iff it is the processed name
and its detector fired, or it is a different name that was active
before. -/
theorem managerStep_active (m : Manager) (name : String) (det : Bool) (rep : ℕ)
    (m' : Manager) (hs : managerStep m name det rep = .ok m') (x : String) :
    x ∈ m'.activeExercises ↔
      ((x = name ∧ det = true) ∨ (x ≠ name ∧ x ∈ m.activeExercises)) := by
  unfold managerStep at hs
  dsimp only at hs
  split at hs
  · exact absurd hs (by simp)
  · simp only [Except.ok.injEq] at hs
    subst hs
    dsimp only
    split
    · rename_i h1
      simp only [Finset.mem_insert]
      cases det <;> simp_all <;> try tauto
    · split
      · rename_i h1 h2
        simp only [Finset.mem_erase]
        cases det <;> simp_all <;> try tauto
      · rename_i h1 h2
        cases det
        · simp_all
          exact fun ha he => h2 (he ▸ ha)
        · simp_all
          constructor
          · intro ha
            by_cases hx : x = name
            · exact Or.inl hx
            · exact Or.inr ⟨hx, ha⟩
          · rintro (hx | ⟨-, ha⟩)
            · exact hx ▸ h1
            · exact ha

/-- After the detector loop, a name is active iff its detector fired
on this frame, or it names no detector and was active before. -/
theorem processDetectors_active (t : ℝ) (h : List Frame) (ds : List (String × Det)) :
    ∀ (m : Manager) (out : List (String × Det) × Manager),
    processDetectors t h ds m = .ok out →
    (ds.map Prod.fst).Nodup →
    ∀ x, x ∈ out.2.activeExercises ↔
      ((∃ p ∈ ds, p.1 = x ∧ (detStep t p.2 h).1 = .ok true) ∨
        (x ∉ ds.map Prod.fst ∧ x ∈ m.activeExercises)) := by
  induction ds with
  | nil =>
    intro m out hp _ x
    simp only [processDetectors, Except.ok.injEq] at hp
    subst hp
    simp
  | cons p rest ih =>
    obtain ⟨name, d⟩ := p
    intro m out hp hn x
    simp only [List.map_cons, List.nodup_cons] at hn
    obtain ⟨hn1, hn2⟩ := hn
    rw [processDetectors] at hp
    cases hds : detStep t d h with
    | mk res d' =>
    rw [hds] at hp
    cases res with
    | error e => simp at hp
    | ok det =>
      dsimp only at hp
      cases hms : managerStep m name det (detRep d') with
      | error e =>
        rw [hms] at hp
        simp at hp
      | ok mstep =>
        rw [hms] at hp
        dsimp only at hp
        cases hrec : processDetectors t h rest mstep with
        | error e =>
          rw [hrec] at hp
          simp at hp
        | ok out' =>
          rw [hrec] at hp
          obtain ⟨rest', m'⟩ := out'
          dsimp only at hp
          simp only [Except.ok.injEq] at hp
          subst hp
          have hih := ih mstep (rest', m') hrec hn2 x
          have hstep := managerStep_active m name det (detRep d') mstep hms x
          rw [hstep] at hih
          dsimp only at hih ⊢
          rw [hih]
          have hcons : (∃ p ∈ (name, d) :: rest, p.1 = x ∧ (detStep t p.2 h).1 = .ok true) ↔
              ((name = x ∧ det = true) ∨
                ∃ p ∈ rest, p.1 = x ∧ (detStep t p.2 h).1 = .ok true) := by
            simp [hds]
          have hnotin : (x ∉ ((name, d) :: rest).map Prod.fst) ↔
              (¬ x = name ∧ x ∉ rest.map Prod.fst) := by
            simp [not_or, eq_comm]
          rw [hcons, hnotin]
          constructor
          · rintro (hr | ⟨hnr, ⟨hxn, hdet⟩ | ⟨hxn, hA⟩⟩)
            · exact Or.inl (Or.inr hr)
            · exact Or.inl (Or.inl ⟨hxn.symm, hdet⟩)
            · exact Or.inr ⟨⟨hxn, hnr⟩, hA⟩
          · rintro ((⟨hnx, hdet⟩ | hr) | ⟨⟨hxn, hnr⟩, hA⟩)
            · refine Or.inr ⟨?_, Or.inl ⟨hnx.symm, hdet⟩⟩
              rw [hnx.symm]
              exact hn1
            · exact Or.inl hr
            · exact Or.inr ⟨hnr, Or.inr ⟨hxn, hA⟩⟩

/-- A successful, past-warm-up `process_landmarks` call leaves
`total_reps` equal to the sum of the counts. -/
theorem processLandmarks_total (t : ℝ) (m : Manager) (f : Frame) (m' : Manager)
    (hp : processLandmarks t m f = .ok m')
    (hlen : ¬ (dequeAppend m.historySize m.landmarkHistory f).length < 2) :
    m'.totalReps = sumCounts m'.exerciseCounts := by
  unfold processLandmarks at hp
  dsimp only at hp
  rw [if_neg hlen] at hp
  split at hp
  · simp at hp
  · simp only [Except.ok.injEq] at hp
    subst hp
    rfl

/-- A successful, past-warm-up `process_landmarks` call leaves
`active_exercises` equal to the set of names whose detector returned
`True`, provided the detector names are distinct and every previously
active name still has a detector. -/
theorem processLandmarks_active (t : ℝ) (m : Manager) (f : Frame) (m' : Manager)
    (hp : processLandmarks t m f = .ok m')
    (hlen : ¬ (dequeAppend m.historySize m.landmarkHistory f).length < 2)
    (hnodup : (m.detectors.map Prod.fst).Nodup)
    (hsub : ∀ x ∈ m.activeExercises, x ∈ m.detectors.map Prod.fst)
    (x : String) :
    x ∈ m'.activeExercises ↔
      ∃ p ∈ m.detectors, p.1 = x ∧
        (detStep t p.2 (dequeAppend m.historySize m.landmarkHistory f)).1 = .ok true := by
  unfold processLandmarks at hp
  dsimp only at hp
  rw [if_neg hlen] at hp
  split at hp
  · simp at hp
  · rename_i ds m'' heq
    simp only [Except.ok.injEq] at hp
    subst hp
    have hact := processDetectors_active t
      (dequeAppend m.historySize m.landmarkHistory f) m.detectors
      { m with landmarkHistory := dequeAppend m.historySize m.landmarkHistory f }
      (ds, m'') heq hnodup x
    dsimp only at hact ⊢
    rw [hact]
    constructor
    · rintro (hE | ⟨hnn, hA⟩)
      · exact hE
      · exact absurd (hsub x hA) hnn
    · exact Or.inl

/-- Inserting a fresh key with value 0 does not change the counts sum. -/
theorem sumCounts_dset_fresh (cs : List (String × ℕ)) (k : String)
    (hk : k ∉ cs.map Prod.fst) :
    sumCounts (dset cs k 0) = sumCounts cs := by
  induction cs with
  | nil => simp [dset, sumCounts]
  | cons p rest ih =>
    simp only [List.map_cons, List.mem_cons, not_or] at hk
    obtain ⟨hk1, hk2⟩ := hk
    obtain ⟨q, w⟩ := p
    rw [dset]
    rw [if_neg (fun hqk => hk1 (hqk.symm))]
    simp only [sumCounts, List.map_cons, List.sum_cons] at ih ⊢
    rw [ih hk2]

/-- The detector loop over a single jumping-jack detector, given the
outcome of its `detect` call and of the manager bookkeeping. -/
theorem processDetectors_jj (h : List Frame) (m : Manager) (s : JJState)
    (res : Bool) (s' : JJState)
    (hk : jjDetect s h = (.ok res, s'))
    (mstep : Manager) (hms : managerStep m "jj" res s'.repCount = .ok mstep) :
    processDetectors 0 h [("jj", .jj s)] m = .ok ([("jj", .jj s')], mstep) := by
  simp only [processDetectors, detStep, hk, detRep, hms]

/-- Exact value of a 2-d norm when the squared norm is a perfect
square. -/
theorem norm2_eq (v : P2) (d : ℝ) (hd : 0 ≤ d)
    (h : v.1 ^ 2 + v.2 ^ 2 = d ^ 2) : norm2 v = d := by
  unfold norm2
  rw [h]
  exact Real.sqrt_sq hd

/-- The 2-d angle of two rays pointing the same way (the normalized dot
product is exactly 1) is 0°. -/
theorem calc2d_angle_collinear_same (a b c : P2) (na nc : ℝ) (hna : 0 < na)
    (hnc : 0 < nc) (h1 : norm2 (sub2 a b) = na) (h2 : norm2 (sub2 c b) = nc)
    (hdot : dot2 (sub2 a b) (sub2 c b) = na * nc)
    (hm : (1e-10 : ℝ) ≤ na * nc) :
    calculate_2d_angle a b c = 0 := by
  unfold calculate_2d_angle
  dsimp only
  rw [h1, h2, hdot]
  rw [if_neg (not_lt.mpr hm)]
  rw [div_self (ne_of_gt (mul_pos hna hnc))]
  have hclip : clip 1 (-1) 1 = 1 := by unfold clip; norm_num
  rw [hclip, Real.arccos_one]
  unfold degrees
  simp

/-- A frame that genuinely classifies as "closed": the wrists sit on
the shoulder line between the shoulders (arm angles exactly 0° < 30°)
and the ankles coincide (normalized leg width 0 < 0.075).  All twelve
required landmarks are fully visible. -/
noncomputable def jjRealClosedFrame : Frame :=
  [(11, lmk 0.4 0.3 0 1), (12, lmk 0.6 0.3 0 1),
   (13, lmk 0.45 0.45 0 1), (14, lmk 0.55 0.45 0 1),
   (15, lmk 0.5 0.3 0 1), (16, lmk 0.5 0.3 0 1),
   (23, lmk 0.45 0.6 0 1), (24, lmk 0.55 0.6 0 1),
   (25, lmk 0.45 0.75 0 1), (26, lmk 0.55 0.75 0 1),
   (27, lmk 0.5 0.9 0 1), (28, lmk 0.5 0.9 0 1)]

/-- All required landmarks of the genuinely closed frame are visible. -/
theorem jjRealClosedFrame_visible :
    are_landmarks_visible 0.6 jjRealClosedFrame jjRequired = .ok true := by
  unfold jjRequired
  rw [are_landmarks_visible_cons 0.6 jjRealClosedFrame 11 _ _ rfl (by norm_num [lmk]),
    are_landmarks_visible_cons 0.6 jjRealClosedFrame 12 _ _ rfl (by norm_num [lmk]),
    are_landmarks_visible_cons 0.6 jjRealClosedFrame 13 _ _ rfl (by norm_num [lmk]),
    are_landmarks_visible_cons 0.6 jjRealClosedFrame 14 _ _ rfl (by norm_num [lmk]),
    are_landmarks_visible_cons 0.6 jjRealClosedFrame 15 _ _ rfl (by norm_num [lmk]),
    are_landmarks_visible_cons 0.6 jjRealClosedFrame 16 _ _ rfl (by norm_num [lmk]),
    are_landmarks_visible_cons 0.6 jjRealClosedFrame 23 _ _ rfl (by norm_num [lmk]),
    are_landmarks_visible_cons 0.6 jjRealClosedFrame 24 _ _ rfl (by norm_num [lmk]),
    are_landmarks_visible_cons 0.6 jjRealClosedFrame 25 _ _ rfl (by norm_num [lmk]),
    are_landmarks_visible_cons 0.6 jjRealClosedFrame 26 _ _ rfl (by norm_num [lmk]),
    are_landmarks_visible_cons 0.6 jjRealClosedFrame 27 _ _ rfl (by norm_num [lmk]),
    are_landmarks_visible_cons 0.6 jjRealClosedFrame 28 _ _ rfl (by norm_num [lmk])]
  rfl

/-- The left-arm angle of the genuinely closed frame is exactly 0°. -/
theorem jjRealClosed_left_arm :
    calculate_2d_angle (lmk 0.6 0.3 0 1).p2 (lmk 0.4 0.3 0 1).p2 (lmk 0.5 0.3 0 1).p2 = 0 :=
  calc2d_angle_collinear_same _ _ _ 0.2 0.1 (by norm_num) (by norm_num)
    (norm2_eq _ _ (by norm_num) (by norm_num [sub2, Landmark.p2, lmk]))
    (norm2_eq _ _ (by norm_num) (by norm_num [sub2, Landmark.p2, lmk]))
    (by norm_num [dot2, sub2, Landmark.p2, lmk]) (by norm_num)

/-- The right-arm angle of the genuinely closed frame is exactly 0°. -/
theorem jjRealClosed_right_arm :
    calculate_2d_angle (lmk 0.4 0.3 0 1).p2 (lmk 0.6 0.3 0 1).p2 (lmk 0.5 0.3 0 1).p2 = 0 :=
  calc2d_angle_collinear_same _ _ _ 0.2 0.1 (by norm_num) (by norm_num)
    (norm2_eq _ _ (by norm_num) (by norm_num [sub2, Landmark.p2, lmk]))
    (norm2_eq _ _ (by norm_num) (by norm_num [sub2, Landmark.p2, lmk]))
    (by norm_num [dot2, sub2, Landmark.p2, lmk]) (by norm_num)

/-- The ankle separation of the genuinely closed frame is 0. -/
theorem jjRealClosed_ankle_width :
    pp_calculate_distance (lmk 0.5 0.9 0 1).p3 (lmk 0.5 0.9 0 1).p3 = 0 :=
  pp_distance_eq _ _ 0 (le_refl 0) (by norm_num [Landmark.p3, lmk])

/-- The genuinely closed frame does not classify as open. -/
theorem jjRealClosedFrame_not_open :
    decide ((60 : ℝ) <
        calculate_2d_angle (lmk 0.6 0.3 0 1).p2 (lmk 0.4 0.3 0 1).p2 (lmk 0.5 0.3 0 1).p2 ∧
      (60 : ℝ) <
        calculate_2d_angle (lmk 0.4 0.3 0 1).p2 (lmk 0.6 0.3 0 1).p2 (lmk 0.5 0.3 0 1).p2 ∧
      (0.15 : ℝ) <
        (if 0 < pp_calculate_distance (lmk 0.4 0.3 0 1).p3 (lmk 0.6 0.3 0 1).p3 then
          pp_calculate_distance (lmk 0.5 0.9 0 1).p3 (lmk 0.5 0.9 0 1).p3 /
            pp_calculate_distance (lmk 0.4 0.3 0 1).p3 (lmk 0.6 0.3 0 1).p3
        else 0)) = false := by
  apply decide_eq_false
  rintro ⟨h1, -, -⟩
  rw [jjRealClosed_left_arm] at h1
  norm_num at h1

/-- The genuinely closed frame classifies as closed. -/
theorem jjRealClosedFrame_is_closed :
    decide ((calculate_2d_angle (lmk 0.6 0.3 0 1).p2 (lmk 0.4 0.3 0 1).p2 (lmk 0.5 0.3 0 1).p2 <
        (60 : ℝ) / 2) ∧
      (calculate_2d_angle (lmk 0.4 0.3 0 1).p2 (lmk 0.6 0.3 0 1).p2 (lmk 0.5 0.3 0 1).p2 <
        (60 : ℝ) / 2) ∧
      ((if 0 < pp_calculate_distance (lmk 0.4 0.3 0 1).p3 (lmk 0.6 0.3 0 1).p3 then
          pp_calculate_distance (lmk 0.5 0.9 0 1).p3 (lmk 0.5 0.9 0 1).p3 /
            pp_calculate_distance (lmk 0.4 0.3 0 1).p3 (lmk 0.6 0.3 0 1).p3
        else 0) < (0.15 : ℝ) / 2)) = true := by
  apply decide_eq_true
  refine ⟨?_, ?_, ?_⟩
  · rw [jjRealClosed_left_arm]
    norm_num
  · rw [jjRealClosed_right_arm]
    norm_num
  · rw [jj_shoulder_width, jjRealClosed_ankle_width]
    rw [if_pos (by norm_num : (0 : ℝ) < 0.2)]
    norm_num

/-- Detector state after manager call 4 (classification history
`open, open, closed`): phase becomes "open". -/
noncomputable def jjD3 : JJState :=
  { jjT0 with
    positionHistory := [(true, false), (true, false), (false, true)],
    currentPhase := "open", lastDetectionState := false }

/-- After call 5: counts indecisive, phase open → "closing", and the
half-rep arms (`is_active := True`). -/
noncomputable def jjD4 : JJState :=
  { jjT0 with
    positionHistory := [(true, false), (true, false), (false, true), (false, true)],
    currentPhase := "closing", isActive := true, lastDetectionState := true }

/-- After call 6: indecisive again, closing → "opening" (the armed flag
survives). -/
noncomputable def jjD5 : JJState :=
  { jjT0 with
    positionHistory :=
      [(true, false), (true, false), (false, true), (false, true), (false, true)],
    currentPhase := "opening", isActive := true, lastDetectionState := true }

/-- After call 7 (an open frame): indecisive, opening → "closing". -/
noncomputable def jjD6 : JJState :=
  { jjT0 with
    positionHistory :=
      [(true, false), (false, true), (false, true), (false, true), (true, false)],
    currentPhase := "closing", isActive := true, lastDetectionState := true }

/-- After call 8: four of five recent classifications are closed, so
the phase snaps to "closed" while the detector was "closing" and armed:
the rep commits, the 10-frame cooldown starts. -/
noncomputable def jjD7 : JJState :=
  { jjT0 with
    positionHistory :=
      [(false, true), (false, true), (false, true), (true, false), (false, true)],
    currentPhase := "closed", repCount := 1, cooldownCounter := 10,
    lastDetectionState := false }

/-- The manager of the C3 run: an empty `detectors_to_load` list, with
a jumping-jack detector (whose module imports succeed) added through
`add_detector`. -/
noncomputable def MgrJ0 : Manager :=
  addDetector (managerEmpty 30 0.6) "jj" (.jj jjT0)

/-- After the warm-up call. -/
noncomputable def MgrJ1 : Manager :=
  { historySize := 30
    confidenceThreshold := 0.6
    landmarkHistory := [jjOpenFrame]
    detectors := [("jj", .jj jjT0)]
    activeExercises := ∅
    exerciseCounts := [("jj", 0)]
    exerciseDurations := [("jj", 0)]
    totalReps := 0
    lastActive := none }

/-- After call 2 (first classified frame). -/
noncomputable def MgrJ2 : Manager :=
  { MgrJ1 with
    landmarkHistory := [jjOpenFrame, jjOpenFrame],
    detectors := [("jj", .jj jjE1)] }

/-- After call 3. -/
noncomputable def MgrJ3 : Manager :=
  { MgrJ1 with
    landmarkHistory := [jjOpenFrame, jjOpenFrame, jjOpenFrame],
    detectors := [("jj", .jj jjE2)] }

/-- After call 4. -/
noncomputable def MgrJ4 : Manager :=
  { MgrJ1 with
    landmarkHistory := [jjOpenFrame, jjOpenFrame, jjOpenFrame, jjRealClosedFrame],
    detectors := [("jj", .jj jjD3)] }

/-- After call 5: the detector returned `True`, so "jj" becomes active,
its duration ticks and `last_active` is set. -/
noncomputable def MgrJ5 : Manager :=
  { MgrJ1 with
    landmarkHistory :=
      [jjOpenFrame, jjOpenFrame, jjOpenFrame, jjRealClosedFrame, jjRealClosedFrame],
    detectors := [("jj", .jj jjD4)],
    activeExercises := insert "jj" ∅,
    exerciseDurations := [("jj", 1)],
    lastActive := some "jj" }

/-- After call 6. -/
noncomputable def MgrJ6 : Manager :=
  { MgrJ5 with
    landmarkHistory :=
      [jjOpenFrame, jjOpenFrame, jjOpenFrame, jjRealClosedFrame, jjRealClosedFrame,
        jjRealClosedFrame],
    detectors := [("jj", .jj jjD5)],
    exerciseDurations := [("jj", 2)] }

/-- After call 7. -/
noncomputable def MgrJ7 : Manager :=
  { MgrJ5 with
    landmarkHistory :=
      [jjOpenFrame, jjOpenFrame, jjOpenFrame, jjRealClosedFrame, jjRealClosedFrame,
        jjRealClosedFrame, jjOpenFrame],
    detectors := [("jj", .jj jjD6)],
    exerciseDurations := [("jj", 3)] }

/-- After call 8: the rep committed, the detector returned `False`, so
"jj" leaves the active set while its count and the total pick up the
rep. -/
noncomputable def MgrJ8 : Manager :=
  { MgrJ5 with
    landmarkHistory :=
      [jjOpenFrame, jjOpenFrame, jjOpenFrame, jjRealClosedFrame, jjRealClosedFrame,
        jjRealClosedFrame, jjOpenFrame, jjRealClosedFrame],
    detectors := [("jj", .jj jjD7)],
    activeExercises := (insert "jj" (∅ : Finset String)).erase "jj",
    exerciseCounts := [("jj", 1)],
    exerciseDurations := [("jj", 3)],
    totalReps := 1 }

/-- Call 1: warming up. -/
theorem managerJ_run_1 : processLandmarks 0 MgrJ0 jjOpenFrame = .ok MgrJ1 := rfl

/-- Call 2: the open frame classifies `(True, False)`, phase history
too short, detector returns `False`. -/
theorem managerJ_run_2 : processLandmarks 0 MgrJ1 jjOpenFrame = .ok MgrJ2 := by
  have hk : jjDetect jjT0 [jjOpenFrame, jjOpenFrame] = (.ok false, jjE1) := by
    rw [jjDetect_eval jjT0 [jjOpenFrame, jjOpenFrame] jjOpenFrame
      rfl (by norm_num) rfl jjOpenFrame_visible _ _ _ _ _ _ rfl rfl rfl rfl rfl rfl
      true false jjOpenFrame_is_open jjOpenFrame_not_closed]
    rfl
  have hpd := processDetectors_jj [jjOpenFrame, jjOpenFrame]
    { MgrJ1 with landmarkHistory := [jjOpenFrame, jjOpenFrame] }
    jjT0 false jjE1 hk
    { MgrJ1 with landmarkHistory := [jjOpenFrame, jjOpenFrame] } rfl
  unfold processLandmarks
  dsimp only [MgrJ1]
  rw [show dequeAppend 30 [jjOpenFrame] jjOpenFrame = [jjOpenFrame, jjOpenFrame] from rfl]
  rw [if_neg (by norm_num)]
  dsimp only [MgrJ1] at hpd
  rw [hpd]
  rfl

/-- Call 3. -/
theorem managerJ_run_3 : processLandmarks 0 MgrJ2 jjOpenFrame = .ok MgrJ3 := by
  have hk : jjDetect jjE1 [jjOpenFrame, jjOpenFrame, jjOpenFrame] = (.ok false, jjE2) := by
    rw [jjDetect_eval jjE1 [jjOpenFrame, jjOpenFrame, jjOpenFrame] jjOpenFrame
      rfl (by norm_num) rfl jjOpenFrame_visible _ _ _ _ _ _ rfl rfl rfl rfl rfl rfl
      true false jjOpenFrame_is_open jjOpenFrame_not_closed]
    rfl
  have hpd := processDetectors_jj [jjOpenFrame, jjOpenFrame, jjOpenFrame]
    { MgrJ2 with landmarkHistory := [jjOpenFrame, jjOpenFrame, jjOpenFrame] }
    jjE1 false jjE2 hk
    { MgrJ2 with landmarkHistory := [jjOpenFrame, jjOpenFrame, jjOpenFrame] } rfl
  unfold processLandmarks
  dsimp only [MgrJ2, MgrJ1]
  rw [show dequeAppend 30 [jjOpenFrame, jjOpenFrame] jjOpenFrame =
    [jjOpenFrame, jjOpenFrame, jjOpenFrame] from rfl]
  rw [if_neg (by norm_num)]
  dsimp only [MgrJ2, MgrJ1] at hpd
  rw [hpd]
  rfl

/-- Call 4: the closed frame classifies `(False, True)`; with three
entries the phase becomes "open" (two of three opens). -/
theorem managerJ_run_4 : processLandmarks 0 MgrJ3 jjRealClosedFrame = .ok MgrJ4 := by
  have hk : jjDetect jjE2 [jjOpenFrame, jjOpenFrame, jjOpenFrame, jjRealClosedFrame] =
      (.ok false, jjD3) := by
    rw [jjDetect_eval jjE2 [jjOpenFrame, jjOpenFrame, jjOpenFrame, jjRealClosedFrame] jjRealClosedFrame
      rfl (by norm_num) rfl jjRealClosedFrame_visible _ _ _ _ _ _ rfl rfl rfl rfl rfl rfl
      false true jjRealClosedFrame_not_open jjRealClosedFrame_is_closed]
    rfl
  have hpd := processDetectors_jj [jjOpenFrame, jjOpenFrame, jjOpenFrame, jjRealClosedFrame]
    { MgrJ3 with
      landmarkHistory := [jjOpenFrame, jjOpenFrame, jjOpenFrame, jjRealClosedFrame] }
    jjE2 false jjD3 hk
    { MgrJ3 with
      landmarkHistory := [jjOpenFrame, jjOpenFrame, jjOpenFrame, jjRealClosedFrame] } rfl
  unfold processLandmarks
  dsimp only [MgrJ3, MgrJ1]
  rw [show dequeAppend 30 [jjOpenFrame, jjOpenFrame, jjOpenFrame] jjRealClosedFrame =
    [jjOpenFrame, jjOpenFrame, jjOpenFrame, jjRealClosedFrame] from rfl]
  rw [if_neg (by norm_num)]
  dsimp only [MgrJ3, MgrJ1] at hpd
  rw [hpd]
  rfl

/-- Call 5: indecisive counts, open → closing, the half-rep arms and
the detector returns `True`; the manager marks "jj" active. -/
theorem managerJ_run_5 : processLandmarks 0 MgrJ4 jjRealClosedFrame = .ok MgrJ5 := by
  have hk : jjDetect jjD3
      [jjOpenFrame, jjOpenFrame, jjOpenFrame, jjRealClosedFrame, jjRealClosedFrame] =
      (.ok true, jjD4) := by
    rw [jjDetect_eval jjD3
      [jjOpenFrame, jjOpenFrame, jjOpenFrame, jjRealClosedFrame, jjRealClosedFrame] jjRealClosedFrame
      rfl (by norm_num) rfl jjRealClosedFrame_visible _ _ _ _ _ _ rfl rfl rfl rfl rfl rfl
      false true jjRealClosedFrame_not_open jjRealClosedFrame_is_closed]
    rfl
  have hpd := processDetectors_jj
    [jjOpenFrame, jjOpenFrame, jjOpenFrame, jjRealClosedFrame, jjRealClosedFrame]
    { MgrJ4 with
      landmarkHistory :=
        [jjOpenFrame, jjOpenFrame, jjOpenFrame, jjRealClosedFrame, jjRealClosedFrame] }
    jjD3 true jjD4 hk
    { MgrJ5 with detectors := [("jj", .jj jjD3)] } rfl
  unfold processLandmarks
  dsimp only [MgrJ4, MgrJ1]
  rw [show dequeAppend 30 [jjOpenFrame, jjOpenFrame, jjOpenFrame, jjRealClosedFrame]
      jjRealClosedFrame =
    [jjOpenFrame, jjOpenFrame, jjOpenFrame, jjRealClosedFrame, jjRealClosedFrame] from rfl]
  rw [if_neg (by norm_num)]
  dsimp only [MgrJ4, MgrJ5, MgrJ1] at hpd
  rw [hpd]
  rfl

/-- Call 6: closing → opening, still armed, still `True`. -/
theorem managerJ_run_6 : processLandmarks 0 MgrJ5 jjRealClosedFrame = .ok MgrJ6 := by
  have hk : jjDetect jjD4
      [jjOpenFrame, jjOpenFrame, jjOpenFrame, jjRealClosedFrame, jjRealClosedFrame, jjRealClosedFrame] =
      (.ok true, jjD5) := by
    rw [jjDetect_eval jjD4
      [jjOpenFrame, jjOpenFrame, jjOpenFrame, jjRealClosedFrame, jjRealClosedFrame, jjRealClosedFrame]
      jjRealClosedFrame
      rfl (by norm_num) rfl jjRealClosedFrame_visible _ _ _ _ _ _ rfl rfl rfl rfl rfl rfl
      false true jjRealClosedFrame_not_open jjRealClosedFrame_is_closed]
    rfl
  have hpd := processDetectors_jj
    [jjOpenFrame, jjOpenFrame, jjOpenFrame, jjRealClosedFrame, jjRealClosedFrame, jjRealClosedFrame]
    { MgrJ5 with
      landmarkHistory :=
        [jjOpenFrame, jjOpenFrame, jjOpenFrame, jjRealClosedFrame, jjRealClosedFrame,
          jjRealClosedFrame] }
    jjD4 true jjD5 hk
    { MgrJ6 with detectors := [("jj", .jj jjD4)] } rfl
  unfold processLandmarks
  dsimp only [MgrJ5, MgrJ1]
  rw [show dequeAppend 30
      [jjOpenFrame, jjOpenFrame, jjOpenFrame, jjRealClosedFrame, jjRealClosedFrame]
      jjRealClosedFrame =
    [jjOpenFrame, jjOpenFrame, jjOpenFrame, jjRealClosedFrame, jjRealClosedFrame,
      jjRealClosedFrame] from rfl]
  rw [if_neg (by norm_num)]
  dsimp only [MgrJ5, MgrJ6, MgrJ1] at hpd
  rw [hpd]
  rfl

/-- Call 7 (an open frame): opening → closing, still armed, `True`. -/
theorem managerJ_run_7 : processLandmarks 0 MgrJ6 jjOpenFrame = .ok MgrJ7 := by
  have hk : jjDetect jjD5
      [jjOpenFrame, jjOpenFrame, jjOpenFrame, jjRealClosedFrame, jjRealClosedFrame, jjRealClosedFrame, jjOpenFrame] =
      (.ok true, jjD6) := by
    rw [jjDetect_eval jjD5
      [jjOpenFrame, jjOpenFrame, jjOpenFrame, jjRealClosedFrame, jjRealClosedFrame, jjRealClosedFrame, jjOpenFrame]
      jjOpenFrame
      rfl (by norm_num) rfl jjOpenFrame_visible _ _ _ _ _ _ rfl rfl rfl rfl rfl rfl
      true false jjOpenFrame_is_open jjOpenFrame_not_closed]
    rfl
  have hpd := processDetectors_jj
    [jjOpenFrame, jjOpenFrame, jjOpenFrame, jjRealClosedFrame, jjRealClosedFrame, jjRealClosedFrame, jjOpenFrame]
    { MgrJ6 with
      landmarkHistory :=
        [jjOpenFrame, jjOpenFrame, jjOpenFrame, jjRealClosedFrame, jjRealClosedFrame,
          jjRealClosedFrame, jjOpenFrame] }
    jjD5 true jjD6 hk
    { MgrJ7 with detectors := [("jj", .jj jjD5)] } rfl
  unfold processLandmarks
  dsimp only [MgrJ6, MgrJ5, MgrJ1]
  rw [show dequeAppend 30
      [jjOpenFrame, jjOpenFrame, jjOpenFrame, jjRealClosedFrame, jjRealClosedFrame,
        jjRealClosedFrame]
      jjOpenFrame =
    [jjOpenFrame, jjOpenFrame, jjOpenFrame, jjRealClosedFrame, jjRealClosedFrame,
      jjRealClosedFrame, jjOpenFrame] from rfl]
  rw [if_neg (by norm_num)]
  dsimp only [MgrJ6, MgrJ7, MgrJ5, MgrJ1] at hpd
  rw [hpd]
  rfl

/-- Call 8: the phase snaps to "closed" out of "closing" while armed —
the rep commits, the detector returns `False`, the manager removes
"jj" from the active set, copies the rep into the counts and recomputes
the total. -/
theorem managerJ_run_8 : processLandmarks 0 MgrJ7 jjRealClosedFrame = .ok MgrJ8 := by
  have hk : jjDetect jjD6
      [jjOpenFrame, jjOpenFrame, jjOpenFrame, jjRealClosedFrame, jjRealClosedFrame, jjRealClosedFrame, jjOpenFrame, jjRealClosedFrame] =
      (.ok false, jjD7) := by
    rw [jjDetect_eval jjD6
      [jjOpenFrame, jjOpenFrame, jjOpenFrame, jjRealClosedFrame, jjRealClosedFrame, jjRealClosedFrame, jjOpenFrame, jjRealClosedFrame]
      jjRealClosedFrame
      rfl (by norm_num) rfl jjRealClosedFrame_visible _ _ _ _ _ _ rfl rfl rfl rfl rfl rfl
      false true jjRealClosedFrame_not_open jjRealClosedFrame_is_closed]
    rfl
  have hpd := processDetectors_jj
    [jjOpenFrame, jjOpenFrame, jjOpenFrame, jjRealClosedFrame, jjRealClosedFrame, jjRealClosedFrame, jjOpenFrame, jjRealClosedFrame]
    { MgrJ7 with
      landmarkHistory :=
        [jjOpenFrame, jjOpenFrame, jjOpenFrame, jjRealClosedFrame, jjRealClosedFrame,
          jjRealClosedFrame, jjOpenFrame, jjRealClosedFrame] }
    jjD6 false jjD7 hk
    { MgrJ8 with detectors := [("jj", .jj jjD6)], totalReps := 0 } rfl
  unfold processLandmarks
  dsimp only [MgrJ7, MgrJ5, MgrJ1]
  rw [show dequeAppend 30
      [jjOpenFrame, jjOpenFrame, jjOpenFrame, jjRealClosedFrame, jjRealClosedFrame,
        jjRealClosedFrame, jjOpenFrame]
      jjRealClosedFrame =
    [jjOpenFrame, jjOpenFrame, jjOpenFrame, jjRealClosedFrame, jjRealClosedFrame,
      jjRealClosedFrame, jjOpenFrame, jjRealClosedFrame] from rfl]
  rw [if_neg (by norm_num)]
  dsimp only [MgrJ7, MgrJ8, MgrJ5, MgrJ1] at hpd
  rw [hpd]
  rfl

/-- Claim C3 (counterexample): a manager built with an empty
`detectors_to_load` list, a jumping-jack detector added via
`add_detector` (its module imports succeed, and its `detect` runs
normally on tuple frames), and eight `process_landmarks` calls driving
a full open-to-closed jumping-jack cycle reach a state where
`total_reps = 1` equals the counts sum; `remove_detector` then deletes
the only counts entry without recomputing `total_reps`, leaving
`total_reps = 1` against a counts sum of `0` — refuting the claim that
the equality also holds after `remove_detector`. -/
theorem C3_remove_detector_counterexample :
    processLandmarks 0 MgrJ0 jjOpenFrame = .ok MgrJ1 ∧
    processLandmarks 0 MgrJ1 jjOpenFrame = .ok MgrJ2 ∧
    processLandmarks 0 MgrJ2 jjOpenFrame = .ok MgrJ3 ∧
    processLandmarks 0 MgrJ3 jjRealClosedFrame = .ok MgrJ4 ∧
    processLandmarks 0 MgrJ4 jjRealClosedFrame = .ok MgrJ5 ∧
    processLandmarks 0 MgrJ5 jjRealClosedFrame = .ok MgrJ6 ∧
    processLandmarks 0 MgrJ6 jjOpenFrame = .ok MgrJ7 ∧
    processLandmarks 0 MgrJ7 jjRealClosedFrame = .ok MgrJ8 ∧
    MgrJ8.totalReps = sumCounts MgrJ8.exerciseCounts ∧
    (removeDetector MgrJ8 "jj").1 = true ∧
    (removeDetector MgrJ8 "jj").2.totalReps = 1 ∧
    sumCounts (removeDetector MgrJ8 "jj").2.exerciseCounts = 0 :=
  ⟨managerJ_run_1, managerJ_run_2, managerJ_run_3, managerJ_run_4, managerJ_run_5,
    managerJ_run_6, managerJ_run_7, managerJ_run_8, rfl, rfl, rfl, rfl⟩

/-- Claim C3, amended.  After every *successful*, past-warm-up
`process_landmarks` call, `total_reps` equals the sum of the counts
(conjunct 1) and — when detector names are distinct and every active
name still has a detector — `active_exercises` is exactly the set of
names whose detector returned `True` on that frame (conjunct 2);
`add_detector` with a fresh name preserves the total/counts equality
(conjunct 3).  `remove_detector`, however, breaks it (see the
counterexample), and a detector exception aborts `process_landmarks`
between the per-detector updates and the `total_reps` recomputation. -/
theorem C3_manager_aggregation_amended :
    (∀ (t : ℝ) (m : Manager) (f : Frame) (m' : Manager),
      processLandmarks t m f = .ok m' →
      ¬ (dequeAppend m.historySize m.landmarkHistory f).length < 2 →
      m'.totalReps = sumCounts m'.exerciseCounts) ∧
    (∀ (t : ℝ) (m : Manager) (f : Frame) (m' : Manager),
      processLandmarks t m f = .ok m' →
      ¬ (dequeAppend m.historySize m.landmarkHistory f).length < 2 →
      (m.detectors.map Prod.fst).Nodup →
      (∀ x ∈ m.activeExercises, x ∈ m.detectors.map Prod.fst) →
      ∀ x, x ∈ m'.activeExercises ↔
        ∃ p ∈ m.detectors, p.1 = x ∧
          (detStep t p.2 (dequeAppend m.historySize m.landmarkHistory f)).1 = .ok true) ∧
    (∀ (m : Manager) (name : String) (d : Det),
      m.totalReps = sumCounts m.exerciseCounts →
      name ∉ m.exerciseCounts.map Prod.fst →
      (addDetector m name d).totalReps = sumCounts (addDetector m name d).exerciseCounts) :=
  ⟨processLandmarks_total, processLandmarks_active, fun m name d h1 h2 => by
    unfold addDetector
    dsimp only
    rw [sumCounts_dset_fresh m.exerciseCounts name h2]
    exact h1⟩

/-- Witness for C3 (amended): the concrete second run step, the active
characterization on it, and the concrete `add_detector` call of the
run. -/
theorem C3_manager_aggregation_amended_witness :
    MgrJ2.totalReps = sumCounts MgrJ2.exerciseCounts ∧
    ("jj" ∈ MgrJ2.activeExercises ↔
      ∃ p ∈ MgrJ1.detectors, p.1 = "jj" ∧
        (detStep 0 p.2
          (dequeAppend MgrJ1.historySize MgrJ1.landmarkHistory jjOpenFrame)).1 =
          .ok true) ∧
    (addDetector (managerEmpty 30 0.6) "jj" (.jj jjT0)).totalReps =
      sumCounts (addDetector (managerEmpty 30 0.6) "jj" (.jj jjT0)).exerciseCounts :=
  ⟨C3_manager_aggregation_amended.1 0 MgrJ1 jjOpenFrame MgrJ2 managerJ_run_2
      (by norm_num [MgrJ1, dequeAppend]),
    C3_manager_aggregation_amended.2.1 0 MgrJ1 jjOpenFrame MgrJ2 managerJ_run_2
      (by norm_num [MgrJ1, dequeAppend]) (by simp [MgrJ1]) (by simp [MgrJ1]) "jj",
    C3_manager_aggregation_amended.2.2 (managerEmpty 30 0.6) "jj" (.jj jjT0) rfl
      (by simp [managerEmpty])⟩

/-! ### Reset behaviour (claim C4) -/

/-- From its `__init__` state, `ArmCirclesDetector.detect` never
mutates the state: the length and cooldown gates return early, a
visibility failure applies `reset_tracking` (the identity on the
initial state), and a visibility success raises `AttributeError` on
the missing `debug_values` attribute before any mutation. -/
theorem armCirclesDetect_init_frozen (ct : ℝ) (hs : ℕ) (h : List Frame) :
    (armCirclesDetect (armCirclesInit ct hs) h).2 = armCirclesInit ct hs := by
  unfold armCirclesDetect
  repeat' split
  all_goals rfl

/-- Claim C4.  `reset()` restores the counters of every detector over
the states its `detect` can actually reach.  The six detectors that
override `reset` (jumping-jack, squat, sit-up, burpee, plank,
push-up) restore every counter, phase, extremum and history field to
its `__init__` value while preserving the configured thresholds
(plank and push-up additionally keep `last_update_time`, a timestamp
rather than a phase or cooldown counter).  Kick, lunge and
arm-circles define no override, so their `reset` clears only the
base-class fields — but their `detect` never moves the state off its
`__init__` value in the first place (kick and lunge read landmarks
dict-style from tuple frames and fail every gate; the arm-circles
success path raises on the missing `debug_values` before any
mutation), so on every reachable state the base-class `reset`
restores the full `__init__` state there too. -/
theorem C4_reset_restores :
    (∀ s : JJState, jjReset s =
      { jjInit s.confidenceThreshold s.historySize with
        armAngleThreshold := s.armAngleThreshold,
        legWidthThreshold := s.legWidthThreshold,
        cooldownFrames := s.cooldownFrames }) ∧
    (∀ s : SquatState, squatReset s =
      { squatInit s.confidenceThreshold s.historySize with
        cooldownFrames := s.cooldownFrames,
        kneeAngleStandingThreshold := s.kneeAngleStandingThreshold,
        kneeAngleSquatThreshold := s.kneeAngleSquatThreshold,
        hipAngleStandingThreshold := s.hipAngleStandingThreshold,
        hipAngleSquatThreshold := s.hipAngleSquatThreshold,
        minVerticalMovement := s.minVerticalMovement }) ∧
    (∀ s : SitupState, situpReset s =
      { situpInit s.confidenceThreshold s.historySize with
        cooldownFrames := s.cooldownFrames,
        hipAngleDownThreshold := s.hipAngleDownThreshold,
        hipAngleUpThreshold := s.hipAngleUpThreshold,
        minVerticalMovement := s.minVerticalMovement }) ∧
    (∀ s : BurpeeState, burpeeReset s =
      { burpeeInit s.confidenceThreshold s.historySize with
        cooldownFrames := s.cooldownFrames,
        maxSequenceLength := s.maxSequenceLength,
        standingHipHeightThreshold := s.standingHipHeightThreshold,
        standingKneeAngleThreshold := s.standingKneeAngleThreshold,
        squatKneeAngleThreshold := s.squatKneeAngleThreshold,
        squatHipHeightThreshold := s.squatHipHeightThreshold,
        plankBodyAngleThreshold := s.plankBodyAngleThreshold,
        plankHipHeightThreshold := s.plankHipHeightThreshold,
        jumpHeightThreshold := s.jumpHeightThreshold }) ∧
    (∀ s : PlankState, plankReset s =
      { plankInit s.confidenceThreshold s.historySize with
        hipElevationThreshold := s.hipElevationThreshold,
        bodyAngleThreshold := s.bodyAngleThreshold,
        stabilityThreshold := s.stabilityThreshold,
        minPlankTime := s.minPlankTime,
        lastUpdateTime := s.lastUpdateTime }) ∧
    (∀ s : PushUpState, pushupReset s =
      { pushupInit s.confidenceThreshold s.historySize with
        elbowAngleDownThreshold := s.elbowAngleDownThreshold,
        elbowAngleUpThreshold := s.elbowAngleUpThreshold,
        bodyAngleThreshold := s.bodyAngleThreshold,
        minVerticalMovement := s.minVerticalMovement,
        transitioningThreshold := s.transitioningThreshold,
        lastUpdateTime := s.lastUpdateTime }) ∧
    (∀ (ct : ℝ) (hs : ℕ) (h : List Frame),
      (kickDetect (kickInit ct hs) h).2 = kickInit ct hs) ∧
    (∀ (ct : ℝ) (hs : ℕ), kickReset (kickInit ct hs) = kickInit ct hs) ∧
    (∀ (s : LungeState) (h : List Frame), (lungeDetect s h).2 = s) ∧
    (∀ (ct : ℝ) (hs : ℕ), lungeReset (lungeInit ct hs) = lungeInit ct hs) ∧
    (∀ (ct : ℝ) (hs : ℕ) (h : List Frame),
      (armCirclesDetect (armCirclesInit ct hs) h).2 = armCirclesInit ct hs) ∧
    (∀ (ct : ℝ) (hs : ℕ), armCirclesReset (armCirclesInit ct hs) = armCirclesInit ct hs) :=
  ⟨fun _ => rfl, fun _ => rfl, fun _ => rfl, fun _ => rfl, fun _ => rfl, fun _ => rfl,
    kickDetect_init_frozen, fun _ _ => rfl,
    lungeDetect_frozen, fun _ _ => rfl,
    armCirclesDetect_init_frozen, fun _ _ => rfl⟩

/-! ### The visibility gate (claim C7) -/

/-- The spec's wording of the visibility predicate: every required
identifier is present in the frame with confidence at least the
threshold (vacuously true for an empty requirement list). -/
def spec_all_landmarks_visible (t : ℝ) (f : Frame) (r : List ℕ) : Prop :=
  ∀ i ∈ r, ∃ l, f.find? i = some l ∧ t ≤ l.visibility

/-- `are_landmarks_visible` returns `ok True` exactly when the spec's
predicate holds (its failure mode, however, is split between
`ok False` and `KeyError`). -/
theorem are_landmarks_visible_ok_true_iff (t : ℝ) (f : Frame) (r : List ℕ) :
    are_landmarks_visible t f r = .ok true ↔ spec_all_landmarks_visible t f r := by
  induction r with
  | nil => simp [are_landmarks_visible, spec_all_landmarks_visible]
  | cons i rest ih =>
    rw [are_landmarks_visible]
    cases hf : f.find? i with
    | none => simp [hf, spec_all_landmarks_visible]
    | some l =>
      dsimp only
      by_cases hv : l.visibility < t
      · rw [if_pos hv]
        simp [hf, spec_all_landmarks_visible, not_le.mpr hv]
      · rw [if_neg hv, ih]
        simp only [spec_all_landmarks_visible, List.forall_mem_cons, hf]
        constructor
        · exact fun hr => ⟨⟨l, rfl, not_lt.mp hv⟩, hr⟩
        · exact fun hr => hr.2

/-- A present-but-zero-confidence landmark short-circuits
`are_landmarks_visible` to `ok False`. -/
theorem are_landmarks_visible_low (t : ℝ) (f : Frame) (i : ℕ) (rest : List ℕ)
    (l : Landmark) (hfind : f.find? i = some l) (hvis : l.visibility < t) :
    are_landmarks_visible t f (i :: rest) = .ok false := by
  simp only [are_landmarks_visible, hfind]
  exact if_pos hvis

/-- A frame holding only a zero-confidence left hip: the squat
visibility gate fails on it without raising. -/
noncomputable def squatLowVisFrame : Frame := [(23, lmk 0.3 0.6 0 0)]

/-- A frame holding only a fully visible left hip. -/
noncomputable def hipOnlyFrame : Frame := [(23, lmk 0.3 0.6 0 1)]

/-- Counterexample to the "if and only if" of claim C7: a frame
holding only a fully visible left hip, against the requirement list
`[23]`, satisfies the spec's predicate — yet
`check_landmarks_visibility` calls `.get` on the tuple landmark and
raises `AttributeError` instead of returning `True`. -/
theorem C7_visibility_iff_counterexample :
    spec_all_landmarks_visible 0.5 hipOnlyFrame [23] ∧
    check_landmarks_visibility 0.5 hipOnlyFrame [23] = .error .attributeError ∧
    ¬ (check_landmarks_visibility 0.5 hipOnlyFrame [23] = .ok true ↔
        spec_all_landmarks_visible 0.5 hipOnlyFrame [23]) := by
  have hspec : spec_all_landmarks_visible 0.5 hipOnlyFrame [23] := by
    intro i hi
    simp only [List.mem_singleton] at hi
    subst hi
    exact ⟨lmk 0.3 0.6 0 1, rfl, by norm_num [lmk]⟩
  refine ⟨hspec, ?_, fun hiff => ?_⟩
  · exact check_landmarks_visibility_present 0.5 hipOnlyFrame 23 [] (lmk 0.3 0.6 0 1)
      (by simp [hipOnlyFrame]) rfl
  · exact absurd (hiff.mpr hspec) (check_landmarks_visibility_ne_ok_true _ _ _ _)

/-- Claim C7, amended.  The dict-style `check_landmarks_visibility`
never validates a non-empty requirement list at all: it returns
`ok True` for no frame (conjunct 1), raises `AttributeError` from the
`.get` call whenever the first required id is present in a non-empty
frame (conjunct 2), and returns `False` when it is absent
(conjunct 3).  The tuple-based `are_landmarks_visible` used by the
other detectors returns `ok True` exactly on the spec's predicate
(conjunct 4), though its failure mode splits between `ok False` and a
`KeyError`.  On a visibility failure the squat detector returns
not-detected with only `_reset_detection_state` applied (conjunct 5),
which preserves the rep count, the cooldown counter and all
configured thresholds (conjunct 6). -/
theorem C7_visibility_gate_amended :
    (∀ (t : ℝ) (f : Frame) (i : ℕ) (rest : List ℕ),
      check_landmarks_visibility t f (i :: rest) ≠ .ok true) ∧
    (∀ (t : ℝ) (f : Frame) (i : ℕ) (rest : List ℕ) (l : Landmark),
      ¬ f.isEmpty = true → f.find? i = some l →
      check_landmarks_visibility t f (i :: rest) = .error .attributeError) ∧
    (∀ (t : ℝ) (f : Frame) (i : ℕ) (rest : List ℕ),
      ¬ f.isEmpty = true → f.find? i = none →
      check_landmarks_visibility t f (i :: rest) = .ok false) ∧
    (∀ (t : ℝ) (f : Frame) (r : List ℕ),
      are_landmarks_visible t f r = .ok true ↔ spec_all_landmarks_visible t f r) ∧
    (∀ (angleFn : P3 → P3 → P3 → ℝ) (s : SquatState) (h : List Frame) (f : Frame),
      ¬ h.length < 2 → s.cooldownCounter = 0 → negGet h 1 = some f →
      are_landmarks_visible s.confidenceThreshold f squatRequired = .ok false →
      squatDetect angleFn s h = (.ok false, squat_reset_detection_state s)) ∧
    (∀ s : SquatState,
      (squat_reset_detection_state s).repCount = s.repCount ∧
      (squat_reset_detection_state s).cooldownCounter = s.cooldownCounter ∧
      (squat_reset_detection_state s).confidenceThreshold = s.confidenceThreshold ∧
      (squat_reset_detection_state s).cooldownFrames = s.cooldownFrames ∧
      (squat_reset_detection_state s).kneeAngleStandingThreshold =
        s.kneeAngleStandingThreshold ∧
      (squat_reset_detection_state s).kneeAngleSquatThreshold = s.kneeAngleSquatThreshold ∧
      (squat_reset_detection_state s).minVerticalMovement = s.minVerticalMovement) := by
  refine ⟨check_landmarks_visibility_ne_ok_true,
    check_landmarks_visibility_present,
    check_landmarks_visibility_absent,
    are_landmarks_visible_ok_true_iff,
    fun angleFn s h f h1 h2 h3 h4 => ?_,
    fun s => ⟨rfl, rfl, rfl, rfl, rfl, rfl, rfl⟩⟩
  simp only [squatDetect, h2, h3, h4]
  rw [if_neg h1, if_neg (lt_irrefl 0)]

/-- Witness for C7 (amended): the raise on the hip-only frame, the
`False` on a frame missing the first required id, the iff on the
hip-only frame, and the squat failure path on a two-frame history
whose current frame holds only a zero-confidence hip. -/
theorem C7_visibility_gate_amended_witness :
    check_landmarks_visibility 0.5 hipOnlyFrame [23] ≠ .ok true ∧
    check_landmarks_visibility 0.5 hipOnlyFrame [23] = .error .attributeError ∧
    check_landmarks_visibility 0.5 hipOnlyFrame [11] = .ok false ∧
    (are_landmarks_visible 0.5 hipOnlyFrame [23] = .ok true ↔
      spec_all_landmarks_visible 0.5 hipOnlyFrame [23]) ∧
    squatDetect (fun _ _ _ => 0) (squatInit 0.5 30) [squatLowVisFrame, squatLowVisFrame] =
      (.ok false, squat_reset_detection_state (squatInit 0.5 30)) :=
  ⟨C7_visibility_gate_amended.1 0.5 hipOnlyFrame 23 [],
    C7_visibility_gate_amended.2.1 0.5 hipOnlyFrame 23 [] (lmk 0.3 0.6 0 1)
      (by simp [hipOnlyFrame]) rfl,
    C7_visibility_gate_amended.2.2.1 0.5 hipOnlyFrame 11 []
      (by simp [hipOnlyFrame]) rfl,
    C7_visibility_gate_amended.2.2.2.1 0.5 hipOnlyFrame [23],
    C7_visibility_gate_amended.2.2.2.2.1 (fun _ _ _ => 0) (squatInit 0.5 30)
      [squatLowVisFrame, squatLowVisFrame] squatLowVisFrame
      (by norm_num) rfl rfl
      (are_landmarks_visible_low 0.5 squatLowVisFrame 23 _ (lmk 0.3 0.6 0 0) rfl
        (by norm_num [lmk]))⟩

/-! ### Post-rep cooldown gating (claim C10) -/

/-- `jjDetect` during cooldown: `False`, and nothing changes but the
decrement (no decrement on a sub-2-frame history). -/
theorem jjDetect_cooldown (s : JJState) (h : List Frame) (hcd : 0 < s.cooldownCounter) :
    jjDetect s h = (.ok false, s) ∨
    jjDetect s h = (.ok false, { s with cooldownCounter := s.cooldownCounter - 1 }) := by
  unfold jjDetect
  by_cases hl : h.length < 2
  · left
    rw [if_pos hl]
  · right
    rw [if_neg hl, if_pos hcd]

/-- `squatDetect` during cooldown. -/
theorem squatDetect_cooldown (angleFn : P3 → P3 → P3 → ℝ) (s : SquatState)
    (h : List Frame) (hcd : 0 < s.cooldownCounter) :
    squatDetect angleFn s h = (.ok false, s) ∨
    squatDetect angleFn s h =
      (.ok false, { s with cooldownCounter := s.cooldownCounter - 1 }) := by
  unfold squatDetect
  by_cases hl : h.length < 2
  · left
    rw [if_pos hl]
  · right
    rw [if_neg hl, if_pos hcd]

/-- `situpDetect` during cooldown. -/
theorem situpDetect_cooldown (s : SitupState) (h : List Frame)
    (hcd : 0 < s.cooldownCounter) :
    situpDetect s h = (.ok false, s) ∨
    situpDetect s h = (.ok false, { s with cooldownCounter := s.cooldownCounter - 1 }) := by
  unfold situpDetect
  by_cases hl : h.length < 2
  · left
    rw [if_pos hl]
  · right
    rw [if_neg hl, if_pos hcd]

/-- `armCirclesDetect` during cooldown. -/
theorem armCirclesDetect_cooldown (s : ArmCirclesState) (h : List Frame)
    (hcd : 0 < s.cooldownCounter) :
    armCirclesDetect s h = (.ok false, s) ∨
    armCirclesDetect s h =
      (.ok false, { s with cooldownCounter := s.cooldownCounter - 1 }) := by
  unfold armCirclesDetect
  by_cases hl : h.length < 2
  · left
    rw [if_pos hl]
  · right
    rw [if_neg hl, if_pos hcd]

/-- `burpeeDetect` during cooldown. -/
theorem burpeeDetect_cooldown (s : BurpeeState) (h : List Frame)
    (hcd : 0 < s.cooldownCounter) :
    burpeeDetect s h = (.ok false, s) ∨
    burpeeDetect s h = (.ok false, { s with cooldownCounter := s.cooldownCounter - 1 }) := by
  unfold burpeeDetect
  by_cases hl : h.length < 2
  · left
    rw [if_pos hl]
  · right
    rw [if_neg hl, if_pos hcd]

/-- `kickDetect` during cooldown (the kick cooldown gate precedes even
the history-length check, so the decrement is unconditional). -/
theorem kickDetect_cooldown (s : KickState) (h : List Frame)
    (hcd : 0 < s.cooldownCounter) :
    kickDetect s h = (.ok false, { s with cooldownCounter := s.cooldownCounter - 1 }) := by
  unfold kickDetect
  rw [if_pos hcd]

/-- Claim C10: for jumping-jack, squat, sit-up, arm-circles, burpee and
kick, every `detect` call made while the post-rep cooldown counter is
positive returns `False` and changes nothing except decrementing that
counter (no phase, extremum or position-history update happens); the
squat detector is quantified over an arbitrary angle helper.  The
lunge detector lacks this gate, but for it the claim is vacuous in a
stronger way: its visibility gate reads `.get` on tuple landmarks and
can never pass, so `detect` never mutates its state at all — no rep
ever commits and no post-rep cooldown phase ever arises. -/
theorem C10_cooldown_suppresses_detection :
    (∀ (s : JJState) (h : List Frame), 0 < s.cooldownCounter →
      jjDetect s h = (.ok false, s) ∨
      jjDetect s h = (.ok false, { s with cooldownCounter := s.cooldownCounter - 1 })) ∧
    (∀ (angleFn : P3 → P3 → P3 → ℝ) (s : SquatState) (h : List Frame),
      0 < s.cooldownCounter →
      squatDetect angleFn s h = (.ok false, s) ∨
      squatDetect angleFn s h =
        (.ok false, { s with cooldownCounter := s.cooldownCounter - 1 })) ∧
    (∀ (s : SitupState) (h : List Frame), 0 < s.cooldownCounter →
      situpDetect s h = (.ok false, s) ∨
      situpDetect s h = (.ok false, { s with cooldownCounter := s.cooldownCounter - 1 })) ∧
    (∀ (s : ArmCirclesState) (h : List Frame), 0 < s.cooldownCounter →
      armCirclesDetect s h = (.ok false, s) ∨
      armCirclesDetect s h =
        (.ok false, { s with cooldownCounter := s.cooldownCounter - 1 })) ∧
    (∀ (s : BurpeeState) (h : List Frame), 0 < s.cooldownCounter →
      burpeeDetect s h = (.ok false, s) ∨
      burpeeDetect s h = (.ok false, { s with cooldownCounter := s.cooldownCounter - 1 })) ∧
    (∀ (s : KickState) (h : List Frame), 0 < s.cooldownCounter →
      kickDetect s h = (.ok false, { s with cooldownCounter := s.cooldownCounter - 1 })) ∧
    (∀ (s : LungeState) (h : List Frame), (lungeDetect s h).2 = s) :=
  ⟨jjDetect_cooldown, squatDetect_cooldown, situpDetect_cooldown, armCirclesDetect_cooldown,
    burpeeDetect_cooldown, kickDetect_cooldown, lungeDetect_frozen⟩

/-- Witness for C10: concrete cooldown states for the jumping-jack and
kick detectors, and the frozen lunge state after one call from its
initial state. -/
theorem C10_cooldown_suppresses_detection_witness :
    (jjDetect { jjInit 0.6 30 with cooldownCounter := 3 } [] =
        (.ok false, { jjInit 0.6 30 with cooldownCounter := 3 }) ∨
      jjDetect { jjInit 0.6 30 with cooldownCounter := 3 } [] =
        (.ok false,
          { { jjInit 0.6 30 with cooldownCounter := 3 } with
            cooldownCounter :=
              ({ jjInit 0.6 30 with cooldownCounter := 3 } : JJState).cooldownCounter - 1 })) ∧
    kickDetect { kickInit 0.6 30 with cooldownCounter := 5 } [] =
      (.ok false,
        { { kickInit 0.6 30 with cooldownCounter := 5 } with
          cooldownCounter :=
            ({ kickInit 0.6 30 with cooldownCounter := 5 } : KickState).cooldownCounter - 1 }) ∧
    (lungeDetect (lungeInit 0.6 30) []).2 = lungeInit 0.6 30 :=
  ⟨C10_cooldown_suppresses_detection.1 _ [] (by decide),
    C10_cooldown_suppresses_detection.2.2.2.2.2.1 _ [] (by decide),
    C10_cooldown_suppresses_detection.2.2.2.2.2.2 _ []⟩

end FitFighter
